import Mathlib

/-!
terraform-provider-ripe-atlas: provider lifecycle callbacks and resource schema.

A shallow embedding of `internal/provider/*.go`.

* Go callbacks of the form `func (r *T) Op(ctx, req, resp *Resp)` become functions
  `T.Op r req resp : Resp × List atlas.Call`: the response is passed in (it is
  pre-populated by the plugin framework) and passed out, together with the
  sequence of calls made on the RIPE Atlas client library.
* The RIPE Atlas client (`github.com/keltia/ripe-atlas`) is an external
  collaborator: it is a record of result functions, one per endpoint.
* The plugin framework (`terraform-plugin-framework`) is an external
  collaborator: attribute values are three-valued (null / unknown / known),
  diagnostics are an ordered collection without duplicates, and a plan, state
  or configuration holds either nothing (a null object) or one value of the Go
  model struct it is decoded into.
* Go `int` and `int64` are both 64 bit wide on the supported platforms; the
  conversions `int64(x)` and `int(x)` between them are the identity and integers
  are embedded as `Int`.  Unsigned 64 bit arithmetic inside `strconv` is
  embedded as `Nat` with explicit reduction modulo `2 ^ 64`.
-/

namespace RipeAtlas

/-! ## Plugin framework: attribute values -/

/-- Framework 64 bit integer attribute value (`types.Int64`). The Go zero value is `null`. -/
inductive basetypes.Int64Value where
  | null
  | unknown
  | known (v : Int)
  deriving DecidableEq, Repr

/-- Framework string attribute value (`types.String`). The Go zero value is `null`. -/
inductive basetypes.StringValue where
  | null
  | unknown
  | known (s : String)
  deriving DecidableEq, Repr

/-- Framework boolean attribute value (`types.Bool`). The Go zero value is `null`. -/
inductive basetypes.BoolValue where
  | null
  | unknown
  | known (b : Bool)
  deriving DecidableEq, Repr

/-- Constructor `types.Int64Value(v)`: a known value. -/
def types.Int64Value (v : Int) : basetypes.Int64Value := .known v

/-- Constructor `types.StringValue(s)`: a known value. -/
def types.StringValue (s : String) : basetypes.StringValue := .known s

/-- Method `IsUnknown` of an integer attribute value. -/
def basetypes.Int64Value.IsUnknown : basetypes.Int64Value → Bool
  | .unknown => true
  | _ => false

/-- Method `IsNull` of an integer attribute value. -/
def basetypes.Int64Value.IsNull : basetypes.Int64Value → Bool
  | .null => true
  | _ => false

/-- Method `ValueInt64`: the known value, or `0` when null or unknown. -/
def basetypes.Int64Value.ValueInt64 : basetypes.Int64Value → Int
  | .known v => v
  | _ => 0

/-- Method `IsUnknown` of a string attribute value. -/
def basetypes.StringValue.IsUnknown : basetypes.StringValue → Bool
  | .unknown => true
  | _ => false

/-- Method `IsNull` of a string attribute value. -/
def basetypes.StringValue.IsNull : basetypes.StringValue → Bool
  | .null => true
  | _ => false

/-- Method `ValueString`: the known value, or the empty string when null or unknown. -/
def basetypes.StringValue.ValueString : basetypes.StringValue → String
  | .known s => s
  | _ => ""

/-- Method `ValueBool`: the known value, or `false` when null or unknown. -/
def basetypes.BoolValue.ValueBool : basetypes.BoolValue → Bool
  | .known b => b
  | _ => false

/-! ## Plugin framework: diagnostics -/

/-- Severity of a diagnostic. -/
inductive diag.Severity where
  | Error
  | Warning
  deriving DecidableEq, Repr

/-- One diagnostic: severity, summary, detail and, for attribute diagnostics, the attribute path. -/
structure diag.Diagnostic where
  Severity : diag.Severity
  Summary : String
  Detail : String
  Path : Option String
  deriving DecidableEq, Repr

/-- Ordered collection of diagnostics (`diag.Diagnostics`). -/
abbrev diag.Diagnostics := List diag.Diagnostic

/-- Constructor `diag.NewErrorDiagnostic`. -/
def diag.NewErrorDiagnostic (summary detail : String) : diag.Diagnostic :=
  { Severity := .Error, Summary := summary, Detail := detail, Path := none }

/-- Constructor `diag.NewAttributeErrorDiagnostic`. -/
def diag.NewAttributeErrorDiagnostic (path summary detail : String) : diag.Diagnostic :=
  { Severity := .Error, Summary := summary, Detail := detail, Path := some path }

/-- Method `Append` for one diagnostic: a diagnostic already contained is not added again. -/
def diag.Diagnostics.Append1 (ds : diag.Diagnostics) (d : diag.Diagnostic) : diag.Diagnostics :=
  if ds.contains d then ds else ds ++ [d]

/-- Method `Append(in...)`: appends each new diagnostic in order, skipping duplicates. -/
def diag.Diagnostics.Append (ds : diag.Diagnostics) (new : diag.Diagnostics) : diag.Diagnostics :=
  new.foldl diag.Diagnostics.Append1 ds

/-- Method `AddError(summary, detail)`. -/
def diag.Diagnostics.AddError (ds : diag.Diagnostics) (summary detail : String) : diag.Diagnostics :=
  diag.Diagnostics.Append ds [diag.NewErrorDiagnostic summary detail]

/-- Method `AddAttributeError(path, summary, detail)`. -/
def diag.Diagnostics.AddAttributeError (ds : diag.Diagnostics) (path summary detail : String) :
    diag.Diagnostics :=
  diag.Diagnostics.Append ds [diag.NewAttributeErrorDiagnostic path summary detail]

/-- Method `HasError`: some diagnostic has error severity. -/
def diag.Diagnostics.HasError (ds : diag.Diagnostics) : Bool :=
  ds.any (fun d => d.Severity == diag.Severity.Error)

/-! ## Plugin framework: plan, state and configuration data -/

/-- Data of a plan, state or configuration (`tfsdk.Plan`, `tfsdk.State`, `tfsdk.Config`):
`none` is the null object, `some m` an object that decodes into the Go model `m`. -/
structure tfsdk.Data (α : Type) where
  Raw : Option α
  deriving DecidableEq, Repr

/-- The diagnostic reported when a null object is decoded into a Go struct: an error at the
empty attribute path with summary `Value Conversion Error`.  The detail is abridged: the
framework's text goes on to name the path and the Go target type. -/
def tfsdk.nullConversionError : diag.Diagnostic :=
  diag.NewAttributeErrorDiagnostic "" "Value Conversion Error"
    "An unexpected error was encountered trying to build a value. This is always an error in the provider. Received null value, however the target type cannot handle null values."

/-- Method `Get(ctx, &target)`: decodes the object into the target, which starts as the Go
zero value `zero`; returns the diagnostics and the target afterwards. -/
def tfsdk.Data.Get {α : Type} (d : tfsdk.Data α) (zero : α) : diag.Diagnostics × α :=
  match d.Raw with
  | some m => ([], m)
  | none => ([tfsdk.nullConversionError], zero)

/-- Method `Set(ctx, &val)`: replaces the whole object; returns the diagnostics and the new data. -/
def tfsdk.Data.Set {α : Type} (_d : tfsdk.Data α) (val : α) : diag.Diagnostics × tfsdk.Data α :=
  ([], { Raw := some val })

/-! ## Go runtime: slices and maps -/

/-- Go slice: `none` is the nil slice (encoded as a null list by the framework), `some l` a
non-nil slice with elements `l`. -/
abbrev Slice (α : Type) := Option (List α)

/-- Elements of a slice, as ranged over by `for _, x := range s`. -/
def Slice.elems {α : Type} : Slice α → List α
  | none => []
  | some l => l

/-- Builtin `append(s, x)`: the result is never nil. -/
def Slice.append {α : Type} (s : Slice α) (x : α) : Slice α :=
  some (Slice.elems s ++ [x])

/-- Go `map[string]string` as an association list with unique keys. -/
abbrev GoMap := List (String × String)

/-- Map read `m[k]` with presence flag. -/
def GoMap.get (m : GoMap) (k : String) : Option String :=
  match m with
  | [] => none
  | (k1, v1) :: rest => if k1 = k then some v1 else GoMap.get rest k

/-- Map write `m[k] = v`. -/
def GoMap.set (m : GoMap) (k v : String) : GoMap :=
  match m with
  | [] => [(k, v)]
  | (k1, v1) :: rest => if k1 = k then (k, v) :: rest else (k1, v1) :: GoMap.set rest k v

/-! ## Go standard library: strings and `strconv` -/

/-- The bytes of a Go string (its UTF-8 encoding), each as a natural number below 256. -/
def goBytes (s : String) : List Nat :=
  s.toUTF8.data.toList.map UInt8.toNat

/-- The two sentinel errors `strconv.ErrRange` and `strconv.ErrSyntax`. -/
inductive strconv.Err where
  | ErrRange
  | ErrSyntax
  deriving DecidableEq, Repr

/-- Method `Error` of the sentinel errors. -/
def strconv.Err.Error : strconv.Err → String
  | .ErrRange => "value out of range"
  | .ErrSyntax => "invalid syntax"

/-- Go struct `strconv.NumError`. -/
structure strconv.NumError where
  Func : String
  Num : String
  Err : strconv.Err
  deriving DecidableEq, Repr

/-- Method `(e *NumError) Error`; `Quote` is `strconv.Quote`. -/
def strconv.NumError.Error (Quote : String → String) (e : strconv.NumError) : String :=
  "strconv." ++ e.Func ++ ": " ++ "parsing " ++ Quote e.Num ++ ": " ++ e.Err.Error

/-- Constant `maxUint64 = 1<<64 - 1`. -/
def strconv.maxUint64 : Nat := 18446744073709551615

/-- Helper `lower(c) = c | ('x' - 'X')`. -/
def strconv.lower (c : Nat) : Nat := c ||| 32

/-- The `switch` at the head of the digit loop of `ParseUint` (with `base != 0`): the digit
value of byte `c`, or `none` in the `default` case. -/
def strconv.digitValue (c : Nat) : Option Nat :=
  if 48 ≤ c ∧ c ≤ 57 then some (c - 48)
  else if 97 ≤ strconv.lower c ∧ strconv.lower c ≤ 122 then some (strconv.lower c - 97 + 10)
  else none

/-- The digit loop of `ParseUint(s, 10, 64)`, started with accumulator `n`: the value and
error that `ParseUint` returns.  `cutoff = maxUint64/10 + 1` and `maxVal = 1<<64 - 1`. -/
def strconv.parseUintLoop : List Nat → Nat → Nat × Option strconv.Err
  | [], n => (n, none)
  | c :: rest, n =>
    match strconv.digitValue c with
    | none => (0, some .ErrSyntax)
    | some d =>
      if d ≥ 10 then (0, some .ErrSyntax)
      else if n ≥ strconv.maxUint64 / 10 + 1 then (strconv.maxUint64, some .ErrRange)
      else
        let n10 := (n * 10) % 2 ^ 64
        let n1 := (n10 + d) % 2 ^ 64
        if n1 < n10 ∨ n1 > strconv.maxUint64 then (strconv.maxUint64, some .ErrRange)
        else strconv.parseUintLoop rest n1

/-- Function `strconv.ParseUint(s, 10, 64)` on the bytes of `s`: value and error kind. -/
def strconv.ParseUint (s : List Nat) : Nat × Option strconv.Err :=
  if s = [] then (0, some .ErrSyntax)
  else strconv.parseUintLoop s 0

/-- Conversion `int64(x)` of an integer to 64 bit two's complement. -/
def strconv.toInt64 (x : Int) : Int :=
  (x + 9223372036854775808) % 18446744073709551616 - 9223372036854775808

/-- Function `strconv.ParseInt(s, 10, 64)`: value and error. -/
def strconv.ParseInt (s : String) : Int × Option strconv.NumError :=
  match goBytes s with
  | [] => (0, some { Func := "ParseInt", Num := s, Err := .ErrSyntax })
  | c :: rest =>
    let (neg, digits) :=
      if c = 43 then (false, rest) else if c = 45 then (true, rest) else (false, c :: rest)
    let (un, err) := strconv.ParseUint digits
    if err = some .ErrSyntax then (0, some { Func := "ParseInt", Num := s, Err := .ErrSyntax })
    else
      let cutoff : Nat := 2 ^ 63
      if neg = false ∧ un ≥ cutoff then
        ((cutoff : Int) - 1, some { Func := "ParseInt", Num := s, Err := .ErrRange })
      else if neg = true ∧ un > cutoff then
        (-(cutoff : Int), some { Func := "ParseInt", Num := s, Err := .ErrRange })
      else
        let n := strconv.toInt64 un
        if neg then (strconv.toInt64 (-n), none) else (n, none)

/-! ## RIPE Atlas client library (external collaborator) -/

/-- Probe-set rule of a creation request, as built by `atlas.NewProbeSet(howmany, settype,
value, tags)`; the rule is identified by the four arguments of its constructor. -/
structure atlas.ProbeSet where
  Requested : Int
  Type_ : String
  Value : String
  Tags : String
  deriving DecidableEq, Repr

/-- Constructor `atlas.NewProbeSet`. -/
def atlas.NewProbeSet (howmany : Int) (settype value tags : String) : atlas.ProbeSet :=
  { Requested := howmany, Type_ := settype, Value := value, Tags := tags }

/-- Creation request `atlas.MeasurementRequest`; a definition is identified by the option
map handed to `AddDefinition`. -/
structure atlas.MeasurementRequest where
  Definitions : List GoMap
  IsOneoff : Bool
  Probes : Slice atlas.ProbeSet
  deriving DecidableEq, Repr

/-- Method `AddDefinition(opts)`: appends one definition built from the options. -/
def atlas.MeasurementRequest.AddDefinition (r : atlas.MeasurementRequest) (opts : GoMap) :
    atlas.MeasurementRequest :=
  { r with Definitions := r.Definitions ++ [opts] }

/-- Creation response `atlas.MeasurementResp`: the identifiers of the measurements created. -/
structure atlas.MeasurementResp where
  Measurements : List Int
  deriving DecidableEq, Repr

/-- Participation request of a measurement, as returned by the fetch endpoint. -/
structure atlas.ParticipationRequest where
  Type_ : String
  Value : String
  Requested : Int
  deriving DecidableEq, Repr

/-- Status of a measurement. -/
structure atlas.MeasurementStatus where
  Name : String
  deriving DecidableEq, Repr

/-- The fields of `atlas.Measurement` that the provider reads. -/
structure atlas.Measurement where
  ID : Int
  Description : String
  Type_ : String
  Target : String
  Interval : Int
  Packets : Int
  Size : Int
  Status : atlas.MeasurementStatus
  ProbesRequested : Int
  ProbesScheduled : Int
  ParticipationRequests : List atlas.ParticipationRequest
  deriving DecidableEq, Repr

/-- The fields of `atlas.Credits` that the provider reads. -/
structure atlas.Credits where
  EstimatedDailyIncome : Int
  EstimatedDailyExpenditure : Int
  EstimatedDailyBalance : Int
  CurrentBalance : Int
  EstimatedRunoutSeconds : Int
  deriving DecidableEq, Repr

/-- Client configuration `atlas.Config`. -/
structure atlas.Config where
  APIKey : String
  deriving DecidableEq, Repr

/-- A call made on the client library that contacts the upstream service, or that
constructs a client. -/
inductive atlas.Call where
  | NewClient (cfg : atlas.Config)
  | Ping (request : atlas.MeasurementRequest)
  | GetMeasurement (id : Int) (participation : Bool)
  | GetMeasurements (opts : GoMap)
  | DeleteMeasurement (id : Int)
  | GetCredits
  deriving DecidableEq, Repr

/-- The client `*atlas.Client`: what each method returns.  An upstream error is represented by
its text (`err.Error()`).  `NewMeasurement` only builds a request value locally. -/
structure atlas.Client where
  NewMeasurement : atlas.MeasurementRequest
  Ping : atlas.MeasurementRequest → Except String atlas.MeasurementResp
  GetMeasurement : Int → Bool → Except String atlas.Measurement
  GetMeasurements : GoMap → Except String (List atlas.Measurement)
  DeleteMeasurement : Int → Option String
  GetCredits : Except String atlas.Credits

/-! ## measurement_resource.go -/

/-- Go struct `ProbeSetResourceModel`. -/
structure ProbeSetResourceModel where
  Number : basetypes.Int64Value
  Type_ : basetypes.StringValue
  Value : basetypes.StringValue
  deriving DecidableEq, Repr

/-- Go struct `MeasurementResourceModel`. -/
structure MeasurementResourceModel where
  ID : basetypes.Int64Value
  Description : basetypes.StringValue
  Type_ : basetypes.StringValue
  Target : basetypes.StringValue
  Interval : basetypes.Int64Value
  Packets : basetypes.Int64Value
  Size : basetypes.Int64Value
  ProbeSet : Slice ProbeSetResourceModel
  LastUpdated : basetypes.StringValue
  deriving DecidableEq, Repr

/-- Go zero value of `MeasurementResourceModel` (`var data MeasurementResourceModel`). -/
def MeasurementResourceModel.zero : MeasurementResourceModel :=
  { ID := .null, Description := .null, Type_ := .null, Target := .null, Interval := .null,
    Packets := .null, Size := .null, ProbeSet := none, LastUpdated := .null }

/-- Go struct `MeasurementResource`: the configured client. -/
structure MeasurementResource where
  client : atlas.Client

/-- Framework `resource.CreateRequest`. -/
structure resource.CreateRequest where
  Plan : tfsdk.Data MeasurementResourceModel

/-- Framework `resource.CreateResponse`. -/
structure resource.CreateResponse where
  State : tfsdk.Data MeasurementResourceModel
  Diagnostics : diag.Diagnostics
  deriving DecidableEq, Repr

/-- Framework `resource.ReadRequest`. -/
structure resource.ReadRequest where
  State : tfsdk.Data MeasurementResourceModel

/-- Framework `resource.ReadResponse`. -/
structure resource.ReadResponse where
  State : tfsdk.Data MeasurementResourceModel
  Diagnostics : diag.Diagnostics
  deriving DecidableEq, Repr

/-- Framework `resource.UpdateRequest`. -/
structure resource.UpdateRequest where
  Plan : tfsdk.Data MeasurementResourceModel
  State : tfsdk.Data MeasurementResourceModel

/-- Framework `resource.UpdateResponse`. -/
structure resource.UpdateResponse where
  State : tfsdk.Data MeasurementResourceModel
  Diagnostics : diag.Diagnostics
  deriving DecidableEq, Repr

/-- Framework `resource.DeleteRequest`. -/
structure resource.DeleteRequest where
  State : tfsdk.Data MeasurementResourceModel

/-- Framework `resource.DeleteResponse`. -/
structure resource.DeleteResponse where
  State : tfsdk.Data MeasurementResourceModel
  Diagnostics : diag.Diagnostics
  deriving DecidableEq, Repr

/-- Framework `resource.ImportStateRequest`. -/
structure resource.ImportStateRequest where
  ID : String

/-- Framework `resource.ImportStateResponse`. -/
structure resource.ImportStateResponse where
  State : tfsdk.Data MeasurementResourceModel
  Diagnostics : diag.Diagnostics
  deriving DecidableEq, Repr

/-- The probe-set loop of `Create` (lines 213-216): `request.Probes = nil`, then one
`append` of `atlas.NewProbeSet(number, type, value, "")` per planned probe set. -/
def MeasurementResource.createProbes (data : MeasurementResourceModel) : Slice atlas.ProbeSet :=
  (Slice.elems data.ProbeSet).foldl
    (fun probes ps =>
      Slice.append probes
        (atlas.NewProbeSet ps.Number.ValueInt64 ps.Type_.ValueString ps.Value.ValueString ""))
    none

/-- The option map of `Create` (lines 219-229); `strconv.FormatInt(v, 10)` is the decimal
rendering of `v`. -/
def MeasurementResource.createOpts (data : MeasurementResourceModel) : GoMap :=
  [ ("Type", data.Type_.ValueString),
    ("Description", data.Description.ValueString),
    ("AF", "4"),
    ("Target", data.Target.ValueString),
    ("Packets", toString data.Packets.ValueInt64),
    ("Interval", toString data.Interval.ValueInt64),
    ("Size", toString data.Size.ValueInt64) ]

/-- The creation request built by `Create` (lines 207-230). -/
def MeasurementResource.createRequest (r : MeasurementResource) (data : MeasurementResourceModel) :
    atlas.MeasurementRequest :=
  let request := r.client.NewMeasurement
  let request := { request with IsOneoff := false }
  let request := { request with Probes := MeasurementResource.createProbes data }
  request.AddDefinition (MeasurementResource.createOpts data)

/-- The identifier loop of `Create` (lines 242-244): every returned identifier is assigned
to `data.ID` in turn. -/
def MeasurementResource.assignIds (data : MeasurementResourceModel) (ids : List Int) :
    MeasurementResourceModel :=
  ids.foldl (fun d newId => { d with ID := types.Int64Value newId }) data

/-- Method `(r *MeasurementResource) Create`. `now` is `time.Now().Format(time.RFC850)`. -/
def MeasurementResource.Create (r : MeasurementResource) (now : String)
    (req : resource.CreateRequest) (resp : resource.CreateResponse) :
    resource.CreateResponse × List atlas.Call :=
  let (getDiags, data) := req.Plan.Get MeasurementResourceModel.zero
  let resp := { resp with Diagnostics := resp.Diagnostics.Append getDiags }
  if resp.Diagnostics.HasError then (resp, [])
  else
    let request := MeasurementResource.createRequest r data
    if data.Type_.ValueString = "ping" then
      match r.client.Ping request with
      | .error err =>
        ({ resp with Diagnostics := (resp.Diagnostics.AddError "Client Error"
            ("Unable to create ping measurement, got error: " ++ err)) },
          [atlas.Call.Ping request])
      | .ok measurements =>
        let data := MeasurementResource.assignIds data measurements.Measurements
        if data.ID.IsUnknown then
          ({ resp with Diagnostics := (resp.Diagnostics.AddError "No ID Retrieved"
              "Error occurred while creating object. No ID retrieved!") },
            [atlas.Call.Ping request])
        else
          let data := { data with LastUpdated := types.StringValue now }
          let (setDiags, state) := resp.State.Set data
          ({ resp with State := state, Diagnostics := resp.Diagnostics.Append setDiags },
            [atlas.Call.Ping request])
    else
      ({ resp with Diagnostics := (resp.Diagnostics.AddError "Type Error"
          ("Measurement type " ++ data.Type_.ValueString ++ " not supported!")) }, [])

/-- The probe-set loop of `Read` (lines 289-296): starts from an empty non-nil slice and
appends one entry per participation request. -/
def MeasurementResource.readProbeSet (measurement : atlas.Measurement) :
    Slice ProbeSetResourceModel :=
  measurement.ParticipationRequests.foldl
    (fun probe_set participation =>
      Slice.append probe_set
        { Type_ := types.StringValue participation.Type_,
          Value := types.StringValue participation.Value,
          Number := types.Int64Value participation.Requested })
    (some [])

/-- Method `(r *MeasurementResource) Read`. -/
def MeasurementResource.Read (r : MeasurementResource)
    (req : resource.ReadRequest) (resp : resource.ReadResponse) :
    resource.ReadResponse × List atlas.Call :=
  let (getDiags, data) := req.State.Get MeasurementResourceModel.zero
  let resp := { resp with Diagnostics := resp.Diagnostics.Append getDiags }
  if resp.Diagnostics.HasError then (resp, [])
  else if data.ID.IsUnknown then (resp, [])
  else
    let fetch := atlas.Call.GetMeasurement data.ID.ValueInt64 true
    match r.client.GetMeasurement data.ID.ValueInt64 true with
    | .error err =>
      ({ resp with Diagnostics :=
          resp.Diagnostics.AddError "Unable to get measurement from RIPE Atlas" err },
        [fetch])
    | .ok measurement =>
      let probe_set := MeasurementResource.readProbeSet measurement
      let data : MeasurementResourceModel :=
        { ID := types.Int64Value measurement.ID,
          Description := types.StringValue measurement.Description,
          Type_ := types.StringValue measurement.Type_,
          Target := types.StringValue measurement.Target,
          Interval := types.Int64Value measurement.Interval,
          Packets := types.Int64Value measurement.Packets,
          Size := types.Int64Value measurement.Size,
          ProbeSet := probe_set,
          LastUpdated := .null }
      let (setDiags, state) := resp.State.Set data
      ({ resp with State := state, Diagnostics := resp.Diagnostics.Append setDiags },
        [fetch])

/-- Method `(r *MeasurementResource) Update`. -/
def MeasurementResource.Update (_r : MeasurementResource)
    (req : resource.UpdateRequest) (resp : resource.UpdateResponse) :
    resource.UpdateResponse × List atlas.Call :=
  let (getDiags, _data) := req.Plan.Get MeasurementResourceModel.zero
  let resp := { resp with Diagnostics := resp.Diagnostics.Append getDiags }
  if resp.Diagnostics.HasError then (resp, [])
  else
    ({ resp with Diagnostics :=
        resp.Diagnostics.AddError "Update not supported!" "Update is currently not supported!" },
      [])

/-- Method `(r *MeasurementResource) Delete`. -/
def MeasurementResource.Delete (r : MeasurementResource)
    (req : resource.DeleteRequest) (resp : resource.DeleteResponse) :
    resource.DeleteResponse × List atlas.Call :=
  let (getDiags, data) := req.State.Get MeasurementResourceModel.zero
  let resp := { resp with Diagnostics := resp.Diagnostics.Append getDiags }
  if resp.Diagnostics.HasError then (resp, [])
  else
    match r.client.DeleteMeasurement data.ID.ValueInt64 with
    | some err =>
      ({ resp with Diagnostics :=
          resp.Diagnostics.AddError "Unable to get measurement from RIPE Atlas" err },
        [atlas.Call.DeleteMeasurement data.ID.ValueInt64])
    | none => (resp, [atlas.Call.DeleteMeasurement data.ID.ValueInt64])

/-- Method `SetAttribute(ctx, path, val)` of a state: assigns one attribute, first replacing a
null object by the object `null` whose attributes are all null. -/
def tfsdk.Data.SetAttribute {α : Type} (d : tfsdk.Data α) (null : α) (assign : α → α) :
    diag.Diagnostics × tfsdk.Data α :=
  ([], { Raw := some (assign (d.Raw.getD null)) })

/-- Method `(r *MeasurementResource) ImportState`; `Quote` is `strconv.Quote`, which renders
the offending text inside the parse error. -/
def MeasurementResource.ImportState (_r : MeasurementResource) (Quote : String → String)
    (req : resource.ImportStateRequest) (resp : resource.ImportStateResponse) :
    resource.ImportStateResponse × List atlas.Call :=
  match strconv.ParseInt req.ID with
  | (_, some err) =>
    ({ resp with Diagnostics := (resp.Diagnostics.AddError "Error importing item"
        ("Could not import item, unexpected error (ID should be an integer): " ++
          err.Error Quote)) }, [])
  | (id, none) =>
    let (_, state) := resp.State.SetAttribute MeasurementResourceModel.zero
      (fun m => { m with ID := types.Int64Value id })
    ({ resp with State := state }, [])

/-! ## provider.go -/

/-- Go struct `RipeAtlasProvider`. -/
structure RipeAtlasProvider where
  version : String

/-- Go struct `RipeAtlasProviderModel`. -/
structure RipeAtlasProviderModel where
  ApiKey : basetypes.StringValue
  deriving DecidableEq, Repr

/-- Go zero value of `RipeAtlasProviderModel`. -/
def RipeAtlasProviderModel.zero : RipeAtlasProviderModel :=
  { ApiKey := .null }

/-- Framework `provider.ConfigureRequest`. -/
structure provider.ConfigureRequest where
  Config : tfsdk.Data RipeAtlasProviderModel

/-- Framework `provider.ConfigureResponse`; `none` is the nil interface value. -/
structure provider.ConfigureResponse where
  DataSourceData : Option atlas.Client
  ResourceData : Option atlas.Client
  Diagnostics : diag.Diagnostics

/-- Detail text of the unknown-key diagnostic. -/
def RipeAtlasProvider.unknownKeyDetail : String :=
  "The provider cannot create the RIPE Atlas API client as there is an unknown configuration value for the RIPE Atlas API Key. " ++
    "Either target apply the source of the value first, set the value statically in the configuration, or use the RIPE_ATLAS_API_KEY environment variable."

/-- Detail text of the missing-key diagnostic. -/
def RipeAtlasProvider.missingKeyDetail : String :=
  "The provider cannot create the  RIPE Atlas API client as there is a missing or empty value for the  RIPE Atlas API Key. " ++
    "Set the host value in the configuration or use the RIPE_ATLAS_API_KEY environment variable. " ++
    "If either is already set, ensure the value is not empty."

/-- The missing-key diagnostic of `Configure`. -/
def RipeAtlasProvider.missingKeyDiagnostic : diag.Diagnostic :=
  diag.NewAttributeErrorDiagnostic "api_key" "Missing RIPE Atlas API Key"
    RipeAtlasProvider.missingKeyDetail

/-- The key selection of `Configure` (lines 80-85): the environment variable, overridden by
the configuration value when that value is not null. -/
def RipeAtlasProvider.selectApiKey (Getenv : String → String) (data : RipeAtlasProviderModel) :
    String :=
  let api_key := Getenv "RIPE_ATLAS_API_KEY"
  if !data.ApiKey.IsNull then data.ApiKey.ValueString else api_key

/-- Method `(p *RipeAtlasProvider) Configure`. `Getenv` is `os.Getenv` and `NewClient` is
`atlas.NewClient`. -/
def RipeAtlasProvider.Configure (_p : RipeAtlasProvider) (Getenv : String → String)
    (NewClient : atlas.Config → Except String atlas.Client)
    (req : provider.ConfigureRequest) (resp : provider.ConfigureResponse) :
    provider.ConfigureResponse × List atlas.Call :=
  let (getDiags, data) := req.Config.Get RipeAtlasProviderModel.zero
  let resp := { resp with Diagnostics := resp.Diagnostics.Append getDiags }
  if resp.Diagnostics.HasError then (resp, [])
  else
    let resp :=
      if data.ApiKey.IsUnknown then
        { resp with Diagnostics := (resp.Diagnostics.AddAttributeError "api_key"
            "Unknown RIPE Atlas API Key" RipeAtlasProvider.unknownKeyDetail) }
      else resp
    if resp.Diagnostics.HasError then (resp, [])
    else
      let api_key := RipeAtlasProvider.selectApiKey Getenv data
      let resp :=
        if api_key = "" then
          { resp with Diagnostics := (resp.Diagnostics.AddAttributeError "api_key"
              "Missing RIPE Atlas API Key" RipeAtlasProvider.missingKeyDetail) }
        else resp
      if resp.Diagnostics.HasError then (resp, [])
      else
        match NewClient { APIKey := api_key } with
        | .error err =>
          ({ resp with Diagnostics := (resp.Diagnostics.AddError
              "Unable to Create RIPE Atlas API Client"
              ("An unexpected error occurred when creating the RIPE Atlas API client. " ++
                "If the error is not clear, please contact the provider developers.\n\n" ++
                "RIPE Atlas Client Error: " ++ err)) },
            [atlas.Call.NewClient { APIKey := api_key }])
        | .ok client =>
          ({ resp with DataSourceData := some client, ResourceData := some client },
            [atlas.Call.NewClient { APIKey := api_key }])

/-! ## measurement_data_source.go -/

/-- Go struct `ProbeCountModel`. -/
structure ProbeCountModel where
  Requested : basetypes.Int64Value
  Scheduled : basetypes.Int64Value
  deriving DecidableEq, Repr

/-- Go struct `MeasurementsModel`. -/
structure MeasurementsModel where
  ID : basetypes.Int64Value
  Description : basetypes.StringValue
  Type_ : basetypes.StringValue
  Target : basetypes.StringValue
  Interval : basetypes.Int64Value
  Packets : basetypes.Int64Value
  Size : basetypes.Int64Value
  Status : basetypes.StringValue
  Probes : ProbeCountModel
  deriving DecidableEq, Repr

/-- Go struct `MeasurementDataSourceModel`. -/
structure MeasurementDataSourceModel where
  Measurements : Slice MeasurementsModel
  Hidden : basetypes.BoolValue
  deriving DecidableEq, Repr

/-- Go zero value of `MeasurementDataSourceModel`. -/
def MeasurementDataSourceModel.zero : MeasurementDataSourceModel :=
  { Measurements := none, Hidden := .null }

/-- Go struct `MeasurementDataSource`: the configured client. -/
structure MeasurementDataSource where
  client : atlas.Client

/-- Framework `datasource.ReadRequest`, for a data source with Go model `α`. -/
structure datasource.ReadRequest (α : Type) where
  Config : tfsdk.Data α

/-- Framework `datasource.ReadResponse`, for a data source with Go model `α`. -/
structure datasource.ReadResponse (α : Type) where
  State : tfsdk.Data α
  Diagnostics : diag.Diagnostics
  deriving DecidableEq, Repr

/-- The filter map of `MeasurementDataSource.Read` (lines 145-149). -/
def MeasurementDataSource.readFilter (data : MeasurementDataSourceModel) : GoMap :=
  let request : GoMap := []
  let request := request.set "mine" "true"
  if data.Hidden.ValueBool then request.set "hidden" "true" else request

/-- The body of the record loop of `MeasurementDataSource.Read` (lines 164-181). -/
def MeasurementDataSource.readEntry (measurement : atlas.Measurement) : MeasurementsModel :=
  { ID := types.Int64Value measurement.ID,
    Description := types.StringValue measurement.Description,
    Type_ := types.StringValue measurement.Type_,
    Target := types.StringValue measurement.Target,
    Interval := types.Int64Value measurement.Interval,
    Packets := types.Int64Value measurement.Packets,
    Size := types.Int64Value measurement.Size,
    Status := types.StringValue measurement.Status.Name,
    Probes :=
      { Requested := types.Int64Value measurement.ProbesRequested,
        Scheduled := types.Int64Value measurement.ProbesScheduled } }

/-- Method `(d *MeasurementDataSource) Read`. -/
def MeasurementDataSource.Read (d : MeasurementDataSource)
    (req : datasource.ReadRequest MeasurementDataSourceModel)
    (resp : datasource.ReadResponse MeasurementDataSourceModel) :
    datasource.ReadResponse MeasurementDataSourceModel × List atlas.Call :=
  let (getDiags, data) := req.Config.Get MeasurementDataSourceModel.zero
  let resp := { resp with Diagnostics := resp.Diagnostics.Append getDiags }
  if resp.Diagnostics.HasError then (resp, [])
  else
    let request := MeasurementDataSource.readFilter data
    match d.client.GetMeasurements request with
    | .error err =>
      ({ resp with Diagnostics :=
          resp.Diagnostics.AddError "Unable to get measurements from RIPE Atlas" err },
        [atlas.Call.GetMeasurements request])
    | .ok measurements =>
      let data := measurements.foldl
        (fun data measurement =>
          { data with Measurements :=
              Slice.append data.Measurements (MeasurementDataSource.readEntry measurement) })
        data
      let (setDiags, state) := resp.State.Set data
      ({ resp with State := state, Diagnostics := resp.Diagnostics.Append setDiags },
        [atlas.Call.GetMeasurements request])

/-! ## credits_data_source.go -/

/-- Go struct `CreditsDataSourceModel`. -/
structure CreditsDataSourceModel where
  EstimatedDailyIncome : basetypes.Int64Value
  EstimatedDailyExpenditure : basetypes.Int64Value
  EstimatedDailyBalance : basetypes.Int64Value
  CurrentBalance : basetypes.Int64Value
  EstimatedRunoutSeconds : basetypes.Int64Value
  deriving DecidableEq, Repr

/-- Go zero value of `CreditsDataSourceModel`. -/
def CreditsDataSourceModel.zero : CreditsDataSourceModel :=
  { EstimatedDailyIncome := .null, EstimatedDailyExpenditure := .null,
    EstimatedDailyBalance := .null, CurrentBalance := .null, EstimatedRunoutSeconds := .null }

/-- Go struct `CreditsDataSource`: the configured client. -/
structure CreditsDataSource where
  client : atlas.Client

/-- Method `(d *CreditsDataSource) Read`. -/
def CreditsDataSource.Read (d : CreditsDataSource)
    (req : datasource.ReadRequest CreditsDataSourceModel)
    (resp : datasource.ReadResponse CreditsDataSourceModel) :
    datasource.ReadResponse CreditsDataSourceModel × List atlas.Call :=
  let (getDiags, _data) := req.Config.Get CreditsDataSourceModel.zero
  let resp := { resp with Diagnostics := resp.Diagnostics.Append getDiags }
  if resp.Diagnostics.HasError then (resp, [])
  else
    match d.client.GetCredits with
    | .error err =>
      ({ resp with Diagnostics :=
          resp.Diagnostics.AddError "Unable to get credits from RIPE Atlas" err },
        [atlas.Call.GetCredits])
    | .ok credits =>
      let data : CreditsDataSourceModel :=
        { EstimatedDailyIncome := types.Int64Value credits.EstimatedDailyIncome,
          EstimatedDailyExpenditure := types.Int64Value credits.EstimatedDailyExpenditure,
          EstimatedDailyBalance := types.Int64Value credits.EstimatedDailyBalance,
          CurrentBalance := types.Int64Value credits.CurrentBalance,
          EstimatedRunoutSeconds := types.Int64Value credits.EstimatedRunoutSeconds }
      let (setDiags, state) := resp.State.Set data
      ({ resp with State := state, Diagnostics := resp.Diagnostics.Append setDiags },
        [atlas.Call.GetCredits])

/-! ## Plugin framework: schema, validators, defaults and plan modifiers -/

/-- Integer validators (`validator.Int64`) that the provider uses. -/
inductive validator.Int64 where
  | Between (min max : Int)
  deriving DecidableEq, Repr

/-- Constructor `int64validator.Between(min, max)`. -/
def int64validator.Between (min max : Int) : validator.Int64 :=
  .Between min max

/-- Validation of a known integer: `Between` reports an error when
`value < min || value > max`; `true` means no error is reported. -/
def validator.Int64.Validate : validator.Int64 → Int → Bool
  | .Between min max, value => !(decide (value < min) || decide (value > max))

/-- String validators (`validator.String`) that the provider uses. -/
inductive validator.String_ where
  | OneOf (values : List String)
  deriving DecidableEq, Repr

/-- Constructor `stringvalidator.OneOf(values...)`. -/
def stringvalidator.OneOf (values : List String) : validator.String_ :=
  .OneOf values

/-- Validation of a known string: `OneOf` reports no error when the value equals one of the
listed values; `true` means no error is reported. -/
def validator.String_.Validate : validator.String_ → String → Bool
  | .OneOf values, value => values.any (fun v => decide (value = v))

/-- Plan modifiers that the provider uses. -/
inductive planmodifier.Modifier where
  | UseStateForUnknown
  | RequiresReplace
  deriving DecidableEq, Repr

/-- Constructor `int64planmodifier.UseStateForUnknown()`. -/
def int64planmodifier.UseStateForUnknown : planmodifier.Modifier := .UseStateForUnknown

/-- Constructor `int64planmodifier.RequiresReplace()`. -/
def int64planmodifier.RequiresReplace : planmodifier.Modifier := .RequiresReplace

/-- Constructor `stringplanmodifier.UseStateForUnknown()`. -/
def stringplanmodifier.UseStateForUnknown : planmodifier.Modifier := .UseStateForUnknown

/-- Constructor `stringplanmodifier.RequiresReplace()`. -/
def stringplanmodifier.RequiresReplace : planmodifier.Modifier := .RequiresReplace

/-- Constructor `int64default.StaticInt64(v)`: the default is the value itself. -/
def int64default.StaticInt64 (v : Int) : Option Int := some v

/-- Framework `schema.Int64Attribute`; fields left out of a literal have their Go zero value. -/
structure schema.Int64Attribute where
  Required : Bool := false
  Optional : Bool := false
  Computed : Bool := false
  Default : Option Int := none
  Validators : List validator.Int64 := []
  PlanModifiers : List planmodifier.Modifier := []
  deriving DecidableEq, Repr

/-- Framework `schema.StringAttribute`; fields left out of a literal have their Go zero value. -/
structure schema.StringAttribute where
  Required : Bool := false
  Optional : Bool := false
  Computed : Bool := false
  Validators : List validator.String_ := []
  PlanModifiers : List planmodifier.Modifier := []
  deriving DecidableEq, Repr

/-- An attribute of a nested object: an integer or a string attribute. -/
inductive schema.NestedAttribute where
  | int64 (a : schema.Int64Attribute)
  | string (a : schema.StringAttribute)
  deriving DecidableEq, Repr

/-- Framework `schema.ListNestedAttribute` with the attributes of its nested object. -/
structure schema.ListNestedAttribute where
  Required : Bool := false
  NestedObject : List (String × schema.NestedAttribute) := []
  deriving DecidableEq, Repr

/-- Framework `schema.Attribute`, for the attribute kinds that the resource schema uses. -/
inductive schema.Attribute where
  | int64 (a : schema.Int64Attribute)
  | string (a : schema.StringAttribute)
  | listNested (a : schema.ListNestedAttribute)
  deriving DecidableEq, Repr

/-- Framework `schema.Schema`: the attribute map, as an association list. -/
structure schema.Schema where
  MarkdownDescription : String
  Attributes : List (String × schema.Attribute)
  deriving DecidableEq, Repr

/-- The attribute registered under `name`, if any (map read `Attributes[name]`). -/
def schema.Schema.attribute (s : schema.Schema) (name : String) : Option schema.Attribute :=
  (s.Attributes.find? (fun entry => decide (entry.1 = name))).map (fun entry => entry.2)

/-- A known integer passes every validator of the integer attribute `name`. -/
def schema.Schema.acceptsInt64 (s : schema.Schema) (name : String) (value : Int) : Bool :=
  match s.attribute name with
  | some (.int64 a) => a.Validators.all (fun v => v.Validate value)
  | _ => false

/-- A known string passes every validator of the string attribute `name`. -/
def schema.Schema.acceptsString (s : schema.Schema) (name : String) (value : String) : Bool :=
  match s.attribute name with
  | some (.string a) => a.Validators.all (fun v => v.Validate value)
  | _ => false

/-- The default declared for the integer attribute `name`, if any. -/
def schema.Schema.defaultInt64 (s : schema.Schema) (name : String) : Option Int :=
  match s.attribute name with
  | some (.int64 a) => a.Default
  | _ => none

/-! ## measurement_resource.go: schema -/

/-- Method `(r *MeasurementResource) Schema`: the value assigned to `resp.Schema`. -/
def MeasurementResource.Schema : schema.Schema :=
  { MarkdownDescription := "RIPE Atlas Measurement",
    Attributes :=
      [ ("id", .int64
          { Computed := true,
            PlanModifiers := [int64planmodifier.UseStateForUnknown] }),
        ("description", .string
          { Required := true }),
        ("type", .string
          { Required := true,
            Validators :=
              [stringvalidator.OneOf ["ping", "dns", "http", "ntp", "sslcert", "traceroute"]],
            PlanModifiers := [stringplanmodifier.RequiresReplace] }),
        ("target", .string
          { Required := true,
            PlanModifiers := [stringplanmodifier.RequiresReplace] }),
        ("interval", .int64
          { Optional := true,
            Computed := true,
            Default := int64default.StaticInt64 300,
            Validators := [int64validator.Between 30 3600],
            PlanModifiers := [int64planmodifier.RequiresReplace] }),
        ("packets", .int64
          { Optional := true,
            Computed := true,
            Default := int64default.StaticInt64 3,
            Validators := [int64validator.Between 1 10],
            PlanModifiers := [int64planmodifier.RequiresReplace] }),
        ("size", .int64
          { Optional := true,
            Computed := true,
            Default := int64default.StaticInt64 48,
            Validators := [int64validator.Between 48 1500],
            PlanModifiers := [int64planmodifier.RequiresReplace] }),
        ("probe_set", .listNested
          { Required := true,
            NestedObject :=
              [ ("number", .int64
                  { Required := true,
                    Validators := [int64validator.Between 1 50] }),
                ("type", .string
                  { Required := true,
                    Validators :=
                      [stringvalidator.OneOf ["area", "country", "asn", "probes", "msm"]] }),
                ("value", .string
                  { Required := true }) ] }),
        ("last_updated", .string
          { Computed := true,
            PlanModifiers := [stringplanmodifier.UseStateForUnknown] }) ] }

/-! ## Reference notions used to state the properties -/

/-- A byte is an ASCII decimal digit. -/
def isDecimalDigit (c : Nat) : Bool :=
  decide (48 ≤ c ∧ c ≤ 57)

/-- One step of positional base-10 evaluation: append the digit byte `c` to the value `n`. -/
def decimalStep (n c : Nat) : Nat :=
  n * 10 + (c - 48)

/-- The natural number denoted by a sequence of ASCII decimal digits. -/
def decimalValue (ds : List Nat) : Nat :=
  ds.foldl decimalStep 0

/-- The integer denoted by a string read as a base-10 integer numeral, that is an optional
sign `+` or `-` followed by one or more ASCII decimal digits; `none` when the string is not
such a numeral. -/
def base10Numeral (s : String) : Option Int :=
  match goBytes s with
  | [] => none
  | c :: rest =>
    if c = 43 then
      if rest ≠ [] ∧ rest.all isDecimalDigit = true then some (decimalValue rest : Int) else none
    else if c = 45 then
      if rest ≠ [] ∧ rest.all isDecimalDigit = true then some (-(decimalValue rest : Int)) else none
    else if (c :: rest).all isDecimalDigit = true then some (decimalValue (c :: rest) : Int)
    else none

/-! ## Concrete inputs -/

/-- A measurement as the upstream service may return it. -/
def Example.measurement : atlas.Measurement :=
  { ID := 42, Description := "d", Type_ := "ping", Target := "t", Interval := 300, Packets := 3,
    Size := 48, Status := { Name := "Ongoing" }, ProbesRequested := 3, ProbesScheduled := 3,
    ParticipationRequests :=
      [ { Type_ := "probes", Value := "123", Requested := 1 },
        { Type_ := "country", Value := "SS", Requested := 2 } ] }

/-- A client whose creation endpoint answers with the identifiers `ids` and whose other
endpoints answer with `Example.measurement`. -/
def Example.client (ids : List Int) : atlas.Client :=
  { NewMeasurement := { Definitions := [], IsOneoff := true, Probes := none },
    Ping := fun _ => .ok { Measurements := ids },
    GetMeasurement := fun _ _ => .ok Example.measurement,
    GetMeasurements := fun _ => .ok [Example.measurement],
    DeleteMeasurement := fun _ => none,
    GetCredits := .ok
      { EstimatedDailyIncome := 0, EstimatedDailyExpenditure := 0, EstimatedDailyBalance := 0,
        CurrentBalance := 0, EstimatedRunoutSeconds := 0 } }

/-- A planned measurement of type `type` with identity `id`. -/
def Example.model (type : String) (id : basetypes.Int64Value) : MeasurementResourceModel :=
  { ID := id, Description := .known "d", Type_ := .known type, Target := .known "t",
    Interval := .known 300, Packets := .known 3, Size := .known 48,
    ProbeSet := some [{ Number := .known 1, Type_ := .known "probes", Value := .known "123" }],
    LastUpdated := .unknown }

/-- A rendering of `strconv.Quote` for texts without special characters. -/
def Example.Quote (s : String) : String :=
  "\"" ++ s ++ "\""

/-- An environment in which `RIPE_ATLAS_API_KEY` is `value` and nothing else is set. -/
def Example.Getenv (value : String) (name : String) : String :=
  if name = "RIPE_ATLAS_API_KEY" then value else ""

/-- A client constructor that always succeeds. -/
def Example.NewClient (_cfg : atlas.Config) : Except String atlas.Client :=
  .ok (Example.client [])

/-- A client every endpoint of which fails with the error text `err`. -/
def Example.failingClient (err : String) : atlas.Client :=
  { NewMeasurement := { Definitions := [], IsOneoff := true, Probes := none },
    Ping := fun _ => .error err,
    GetMeasurement := fun _ _ => .error err,
    GetMeasurements := fun _ => .error err,
    DeleteMeasurement := fun _ => some err,
    GetCredits := .error err }

/-- A measurement as the upstream service returns it for what `Example.model "ping"` creates
with identifier 42: one participation request, for the planned probe set. -/
def Example.created : atlas.Measurement :=
  { ID := 42, Description := "d", Type_ := "ping", Target := "t", Interval := 300, Packets := 3,
    Size := 48, Status := { Name := "Ongoing" }, ProbesRequested := 1, ProbesScheduled := 1,
    ParticipationRequests := [ { Type_ := "probes", Value := "123", Requested := 1 } ] }

/-- A client whose creation endpoint answers with identifier 42 and whose fetch endpoint
answers with `Example.created`. -/
def Example.roundTripClient : atlas.Client :=
  { NewMeasurement := { Definitions := [], IsOneoff := true, Probes := none },
    Ping := fun _ => .ok { Measurements := [42] },
    GetMeasurement := fun _ _ => .ok Example.created,
    GetMeasurements := fun _ => .ok [Example.created],
    DeleteMeasurement := fun _ => none,
    GetCredits := .error "unused" }

/-- The formatted time at which the example measurement is created. -/
def Example.now : String := "Sunday, 01-Nov-26 23:00:00 UTC"

/-- The state after `Create` of `Example.model "ping"` against `Example.roundTripClient`. -/
def Example.stateAfterCreate : tfsdk.Data MeasurementResourceModel :=
  (MeasurementResource.Create ⟨Example.roundTripClient⟩ Example.now
    ⟨⟨some (Example.model "ping" .unknown)⟩⟩ ⟨⟨none⟩, []⟩).1.State

/-- The state after `ImportState` of the identifier `"42"` into an empty state. -/
def Example.stateAfterImport : tfsdk.Data MeasurementResourceModel :=
  (MeasurementResource.ImportState ⟨Example.roundTripClient⟩ Example.Quote ⟨"42"⟩
    ⟨⟨none⟩, []⟩).1.State

/-- The state after `Read` of the imported state against `Example.roundTripClient`. -/
def Example.stateAfterImportRead : tfsdk.Data MeasurementResourceModel :=
  (MeasurementResource.Read ⟨Example.roundTripClient⟩ ⟨Example.stateAfterImport⟩
    ⟨Example.stateAfterImport, []⟩).1.State

/-! ## Lemmas: diagnostics -/

/-- A diagnostic is contained in the collection after it is appended. -/
theorem Append1_mem (ds : diag.Diagnostics) (d : diag.Diagnostic) :
    d ∈ diag.Diagnostics.Append1 ds d := by
  unfold diag.Diagnostics.Append1
  split
  · next h => simpa using h
  · simp

/-- Appending a diagnostic keeps the diagnostics already present. -/
theorem Append1_subset (ds : diag.Diagnostics) (d e : diag.Diagnostic) (h : e ∈ ds) :
    e ∈ diag.Diagnostics.Append1 ds d := by
  unfold diag.Diagnostics.Append1
  split
  · exact h
  · simp [h]

/-- Membership after appending one diagnostic. -/
theorem Append1_mem_iff (ds : diag.Diagnostics) (d e : diag.Diagnostic) :
    e ∈ diag.Diagnostics.Append1 ds d ↔ e ∈ ds ∨ e = d := by
  unfold diag.Diagnostics.Append1
  split
  · next h =>
    have hd : d ∈ ds := by simpa using h
    constructor
    · intro h1; exact Or.inl h1
    · rintro (h1 | h1)
      · exact h1
      · exact h1 ▸ hd
  · simp

/-- A collection containing an error-severity diagnostic has an error. -/
theorem HasError_of_mem (ds : diag.Diagnostics) (d : diag.Diagnostic) (h : d ∈ ds)
    (hs : d.Severity = diag.Severity.Error) : diag.Diagnostics.HasError ds = true := by
  unfold diag.Diagnostics.HasError
  rw [List.any_eq_true]
  exact ⟨d, h, by simp [hs]⟩

/-- The diagnostic added by `AddError` is contained afterwards. -/
theorem AddError_mem (ds : diag.Diagnostics) (s d : String) :
    diag.NewErrorDiagnostic s d ∈ diag.Diagnostics.AddError ds s d := by
  simp [diag.Diagnostics.AddError, diag.Diagnostics.Append, Append1_mem]

/-- Membership after `AddError`. -/
theorem AddError_mem_iff (ds : diag.Diagnostics) (s d : String) (e : diag.Diagnostic) :
    e ∈ diag.Diagnostics.AddError ds s d ↔ e ∈ ds ∨ e = diag.NewErrorDiagnostic s d := by
  simp [diag.Diagnostics.AddError, diag.Diagnostics.Append, Append1_mem_iff]

/-- After `AddError` the collection has an error. -/
theorem AddError_HasError (ds : diag.Diagnostics) (s d : String) :
    diag.Diagnostics.HasError (diag.Diagnostics.AddError ds s d) = true :=
  HasError_of_mem _ _ (AddError_mem ds s d) rfl

/-- Membership after `AddAttributeError`. -/
theorem AddAttributeError_mem_iff (ds : diag.Diagnostics) (p s d : String) (e : diag.Diagnostic) :
    e ∈ diag.Diagnostics.AddAttributeError ds p s d ↔
      e ∈ ds ∨ e = diag.NewAttributeErrorDiagnostic p s d := by
  simp [diag.Diagnostics.AddAttributeError, diag.Diagnostics.Append, Append1_mem_iff]

/-- After `AddAttributeError` the collection has an error. -/
theorem AddAttributeError_HasError (ds : diag.Diagnostics) (p s d : String) :
    diag.Diagnostics.HasError (diag.Diagnostics.AddAttributeError ds p s d) = true :=
  HasError_of_mem _ _ ((AddAttributeError_mem_iff ds p s d _).2 (Or.inr rfl)) rfl

/-- Appending no diagnostics changes nothing. -/
theorem Append_nil (ds : diag.Diagnostics) : diag.Diagnostics.Append ds [] = ds := rfl

/-! ## Lemmas: the identifier loop of `Create` -/

/-- The identifier loop over `ids ++ [x]` ends by assigning `x`. -/
theorem assignIds_append (data : MeasurementResourceModel) (ids : List Int) (x : Int) :
    MeasurementResource.assignIds data (ids ++ [x]) =
      { MeasurementResource.assignIds data ids with ID := types.Int64Value x } := by
  simp [MeasurementResource.assignIds, List.foldl_append]

/-- The identifier loop changes no field other than `ID`. -/
theorem assignIds_frame (ids : List Int) (data : MeasurementResourceModel) :
    MeasurementResource.assignIds data ids =
      { data with ID := (MeasurementResource.assignIds data ids).ID } := by
  induction ids generalizing data with
  | nil => rfl
  | cons x xs ih =>
    have h := ih { data with ID := types.Int64Value x }
    simp only [MeasurementResource.assignIds, List.foldl_cons] at h ⊢
    rw [h]

/-- After the identifier loop over a non-empty list, `ID` is the last identifier. -/
theorem assignIds_getLast (data : MeasurementResourceModel) (ids : List Int) (h : ids ≠ []) :
    (MeasurementResource.assignIds data ids).ID = types.Int64Value (ids.getLast h) := by
  obtain ⟨l, x, rfl⟩ : ∃ l x, ids = l ++ [x] := ⟨ids.dropLast, ids.getLast h, (List.dropLast_append_getLast h).symm⟩
  rw [assignIds_append]
  simp

/-! ## Lemmas: `strconv.ParseInt` against base-10 numerals -/

/-- On a decimal digit byte the digit switch yields its value, below 10. -/
theorem digitValue_of_digit (c : Nat) (h : isDecimalDigit c = true) :
    strconv.digitValue c = some (c - 48) ∧ c - 48 < 10 := by
  simp only [isDecimalDigit, decide_eq_true_eq] at h
  refine ⟨by simp [strconv.digitValue, h], by omega⟩

/-- On any other byte the digit switch yields nothing or a value of at least 10. -/
theorem digitValue_of_non_digit (c : Nat) (h : isDecimalDigit c = false) :
    strconv.digitValue c = none ∨ ∃ d, strconv.digitValue c = some d ∧ d ≥ 10 := by
  simp only [isDecimalDigit, decide_eq_false_iff_not] at h
  unfold strconv.digitValue
  rw [if_neg h]
  split
  · exact Or.inr ⟨_, rfl, by omega⟩
  · exact Or.inl rfl

/-- Positional evaluation never decreases the accumulator. -/
theorem decimalStep_foldl_ge (ds : List Nat) (n : Nat) : n ≤ ds.foldl decimalStep n := by
  induction ds generalizing n with
  | nil => simp
  | cons c cs ih =>
    simp only [List.foldl_cons]
    have := ih (decimalStep n c)
    unfold decimalStep at this ⊢
    omega

/-- On decimal digits the digit loop returns the denoted value when it fits in 64 bits, and the range error otherwise. -/
theorem parseUintLoop_digits (ds : List Nat) (n : Nat)
    (hd : ds.all isDecimalDigit = true) (hn : n ≤ strconv.maxUint64) :
    strconv.parseUintLoop ds n =
      if ds.foldl decimalStep n ≤ strconv.maxUint64 then (ds.foldl decimalStep n, none)
      else (strconv.maxUint64, some strconv.Err.ErrRange) := by
  induction ds generalizing n with
  | nil => simp [strconv.parseUintLoop, hn]
  | cons c cs ih =>
    simp only [List.all_cons, Bool.and_eq_true] at hd
    obtain ⟨hv, hlt⟩ := digitValue_of_digit c hd.1
    have hmono := decimalStep_foldl_ge cs (decimalStep n c)
    simp only [List.foldl_cons]
    unfold strconv.parseUintLoop
    simp only [hv]
    have h64 : (2 : Nat) ^ 64 = 18446744073709551616 := by norm_num
    simp only [h64, strconv.maxUint64] at *
    unfold decimalStep at hmono ⊢
    rw [if_neg (by omega)]
    by_cases hc : n ≥ 18446744073709551615 / 10 + 1
    · rw [if_pos hc, if_neg (by omega)]
    · rw [if_neg hc]
      by_cases hw : n * 10 + (c - 48) ≥ 18446744073709551616
      · rw [if_pos (by omega), if_neg (by omega)]
      · have e1 : (n * 10 % 18446744073709551616 + (c - 48)) % 18446744073709551616
            = n * 10 + (c - 48) := by omega
        have e2 : n * 10 % 18446744073709551616 = n * 10 := by omega
        simp only [e1]
        rw [if_neg (by omega)]
        have := ih (n * 10 + (c - 48)) hd.2 (by omega)
        unfold decimalStep at this
        exact this

/-- On input containing a byte that is not a decimal digit the digit loop returns an error. -/
theorem parseUintLoop_non_digits (cs : List Nat) (n : Nat)
    (hd : cs.all isDecimalDigit = false) :
    strconv.parseUintLoop cs n = (0, some strconv.Err.ErrSyntax) ∨
      strconv.parseUintLoop cs n = (strconv.maxUint64, some strconv.Err.ErrRange) := by
  induction cs generalizing n with
  | nil => simp at hd
  | cons c cs ih =>
    unfold strconv.parseUintLoop
    cases hc : isDecimalDigit c with
    | false =>
      rcases digitValue_of_non_digit c hc with h | ⟨d, h, hge⟩
      · simp [h]
      · simp [h, hge]
    | true =>
      obtain ⟨hv, hlt⟩ := digitValue_of_digit c hc
      simp only [List.all_cons, hc, Bool.true_and] at hd
      simp only [hv]
      rw [if_neg (by omega)]
      split
      · exact Or.inr rfl
      · split
        · exact Or.inr rfl
        · exact ih _ hd

/-- `ParseUint` on a non-empty sequence of decimal digits. -/
theorem ParseUint_digits (ds : List Nat) (hne : ds ≠ [])
    (hd : ds.all isDecimalDigit = true) :
    strconv.ParseUint ds =
      if decimalValue ds ≤ strconv.maxUint64 then (decimalValue ds, none)
      else (strconv.maxUint64, some strconv.Err.ErrRange) := by
  unfold strconv.ParseUint decimalValue
  rw [if_neg hne]
  exact parseUintLoop_digits ds 0 hd (by simp [strconv.maxUint64])

/-- `ParseUint` on empty input or input containing a byte that is not a decimal digit. -/
theorem ParseUint_non_digits (cs : List Nat)
    (hd : cs = [] ∨ cs.all isDecimalDigit = false) :
    strconv.ParseUint cs = (0, some strconv.Err.ErrSyntax) ∨
      strconv.ParseUint cs = (strconv.maxUint64, some strconv.Err.ErrRange) := by
  unfold strconv.ParseUint
  by_cases hne : cs = []
  · simp [hne]
  · rw [if_neg hne]
    rcases hd with h | h
    · exact absurd h hne
    · exact parseUintLoop_non_digits cs 0 h

/-- The sign split at the head of `ParseInt`, shared by the two lemmas below. -/
theorem ParseInt_unfold (s : String) (c : Nat) (rest : List Nat) (hb : goBytes s = c :: rest)
    (neg : Bool) (digits : List Nat)
    (hsplit : (if c = 43 then (false, rest) else if c = 45 then (true, rest)
      else (false, c :: rest)) = (neg, digits)) :
    strconv.ParseInt s =
      (if (strconv.ParseUint digits).2 = some strconv.Err.ErrSyntax then
        (0, some { Func := "ParseInt", Num := s, Err := .ErrSyntax })
      else if neg = false ∧ (strconv.ParseUint digits).1 ≥ 2 ^ 63 then
        (((2 ^ 63 : Nat) : Int) - 1, some { Func := "ParseInt", Num := s, Err := .ErrRange })
      else if neg = true ∧ (strconv.ParseUint digits).1 > 2 ^ 63 then
        (-((2 ^ 63 : Nat) : Int), some { Func := "ParseInt", Num := s, Err := .ErrRange })
      else if neg then
        (strconv.toInt64 (-(strconv.toInt64 (strconv.ParseUint digits).1)), none)
      else (strconv.toInt64 (strconv.ParseUint digits).1, none)) := by
  unfold strconv.ParseInt
  simp only [hb, hsplit]

/-- `ParseInt` on an optional sign followed by decimal digits denoting a value within the 64 bit signed range. -/
theorem ParseInt_digits (s : String) (c : Nat) (rest : List Nat) (hb : goBytes s = c :: rest)
    (neg : Bool) (digits : List Nat)
    (hsplit : (if c = 43 then (false, rest) else if c = 45 then (true, rest)
      else (false, c :: rest)) = (neg, digits))
    (hne : digits ≠ []) (hd : digits.all isDecimalDigit = true)
    (hlo : neg = true → decimalValue digits ≤ 9223372036854775808)
    (hhi : neg = false → decimalValue digits ≤ 9223372036854775807) :
    strconv.ParseInt s =
      ((if neg then -(decimalValue digits : Int) else (decimalValue digits : Int)), none) := by
  have h63 : (2 : Nat) ^ 63 = 9223372036854775808 := by norm_num
  have hle : decimalValue digits ≤ strconv.maxUint64 := by
    unfold strconv.maxUint64
    cases neg with
    | false => have := hhi rfl; omega
    | true => have := hlo rfl; omega
  have hpu : strconv.ParseUint digits = (decimalValue digits, none) := by
    rw [ParseUint_digits digits hne hd, if_pos hle]
  rw [ParseInt_unfold s c rest hb neg digits hsplit, hpu]
  simp only [h63]
  cases neg with
  | false =>
    have := hhi rfl
    have hlt : ¬ (9223372036854775808 ≤ decimalValue digits) := by omega
    have e : strconv.toInt64 (decimalValue digits : Int) = (decimalValue digits : Int) := by
      unfold strconv.toInt64
      omega
    simp [hlt, e]
  | true =>
    have := hlo rfl
    have hlt : ¬ (9223372036854775808 < decimalValue digits) := by omega
    have e : strconv.toInt64 (-(strconv.toInt64 (decimalValue digits : Int))) =
        -(decimalValue digits : Int) := by
      unfold strconv.toInt64
      omega
    simp [hlt, e]

/-- `ParseInt` fails when what follows the optional sign is empty or contains a byte that is not a decimal digit. -/
theorem ParseInt_non_digits (s : String) (c : Nat) (rest : List Nat) (hb : goBytes s = c :: rest)
    (neg : Bool) (digits : List Nat)
    (hsplit : (if c = 43 then (false, rest) else if c = 45 then (true, rest)
      else (false, c :: rest)) = (neg, digits))
    (hd : digits = [] ∨ digits.all isDecimalDigit = false) :
    ∃ e, (strconv.ParseInt s).2 = some { Func := "ParseInt", Num := s, Err := e } := by
  rw [ParseInt_unfold s c rest hb neg digits hsplit]
  have h63 : (2 : Nat) ^ 63 = 9223372036854775808 := by norm_num
  rcases ParseUint_non_digits digits hd with h | h
  · rw [h]
    exact ⟨.ErrSyntax, by simp⟩
  · rw [h]
    simp only [h63, strconv.maxUint64]
    refine ⟨.ErrRange, ?_⟩
    cases neg <;> simp

/-- `ParseInt` returns the integer denoted by a numeral within the 64 bit signed range. -/
theorem ParseInt_of_numeral (s : String) (n : Int) (h : base10Numeral s = some n)
    (hlo : -9223372036854775808 ≤ n) (hhi : n ≤ 9223372036854775807) :
    strconv.ParseInt s = (n, none) := by
  unfold base10Numeral at h
  split at h
  · exact absurd h (by simp)
  · next c rest hb =>
    by_cases h43 : c = 43
    · rw [if_pos h43] at h
      split at h
      · next hr =>
        have hn : n = (decimalValue rest : Int) := by simpa using h.symm
        have := ParseInt_digits s c rest hb false rest (by simp [h43]) hr.1 hr.2
          (by simp) (by intro _; omega)
        simpa [hn] using this
      · exact absurd h (by simp)
    · rw [if_neg h43] at h
      by_cases h45 : c = 45
      · rw [if_pos h45] at h
        split at h
        · next hr =>
          have hn : n = -(decimalValue rest : Int) := by simpa using h.symm
          have := ParseInt_digits s c rest hb true rest (by simp [h45]) hr.1 hr.2
            (by intro _; omega) (by simp)
          simpa [hn] using this
        · exact absurd h (by simp)
      · rw [if_neg h45] at h
        split at h
        · next hr =>
          have hn : n = (decimalValue (c :: rest) : Int) := by simpa using h.symm
          have := ParseInt_digits s c rest hb false (c :: rest) (by simp [h43, h45])
            (by simp) hr (by simp) (by intro _; omega)
          simpa [hn] using this
        · exact absurd h (by simp)

/-- `ParseInt` returns an error on every string that is not a numeral. -/
theorem ParseInt_of_non_numeral (s : String) (h : base10Numeral s = none) :
    ∃ e, (strconv.ParseInt s).2 = some { Func := "ParseInt", Num := s, Err := e } := by
  unfold base10Numeral at h
  split at h
  · next hb =>
    refine ⟨.ErrSyntax, ?_⟩
    unfold strconv.ParseInt
    simp only [hb]
  · next c rest hb =>
    have key : ∀ ds : List Nat, ¬ (ds ≠ [] ∧ ds.all isDecimalDigit = true) →
        ds = [] ∨ ds.all isDecimalDigit = false := by
      intro ds hds
      by_cases he : ds = []
      · exact Or.inl he
      · right
        cases hall : ds.all isDecimalDigit with
        | false => rfl
        | true => exact absurd ⟨he, hall⟩ hds
    by_cases h43 : c = 43
    · rw [if_pos h43] at h
      split at h
      · exact absurd h (by simp)
      · next hr =>
        exact ParseInt_non_digits s c rest hb false rest (by simp [h43]) (key rest hr)
    · rw [if_neg h43] at h
      by_cases h45 : c = 45
      · rw [if_pos h45] at h
        split at h
        · exact absurd h (by simp)
        · next hr =>
          exact ParseInt_non_digits s c rest hb true rest (by simp [h45]) (key rest hr)
      · rw [if_neg h45] at h
        split at h
        · exact absurd h (by simp)
        · next hr =>
          exact ParseInt_non_digits s c rest hb false (c :: rest) (by simp [h43, h45])
            (Or.inr (by simpa using hr))

/-! ## MeasurementResource.Create -/

/-- C1 (amended): for every create request whose plan decodes to `data` with
`type == "ping"`, handed a response without error diagnostics, whose upstream Ping call
succeeds with a non-empty identifier list, `Create` writes a state whose id is the LAST element
of that list; when the list has exactly one element this is that element. -/
theorem Create_ping_id_is_last (r : MeasurementResource) (now : String)
    (req : resource.CreateRequest) (resp : resource.CreateResponse)
    (data : MeasurementResourceModel) (ms : atlas.MeasurementResp)
    (hplan : req.Plan.Raw = some data)
    (hresp : diag.Diagnostics.HasError resp.Diagnostics = false)
    (htype : data.Type_.ValueString = "ping")
    (hping : r.client.Ping (MeasurementResource.createRequest r data) = .ok ms)
    (hne : ms.Measurements ≠ []) :
    ∃ st, (MeasurementResource.Create r now req resp).1.State.Raw = some st ∧
      st.ID = types.Int64Value (ms.Measurements.getLast hne) ∧
      (∀ x, ms.Measurements = [x] → st.ID = types.Int64Value x) := by
  have hid := assignIds_getLast data ms.Measurements hne
  have hunk : (MeasurementResource.assignIds data ms.Measurements).ID.IsUnknown = false := by
    rw [hid]; rfl
  refine ⟨{ MeasurementResource.assignIds data ms.Measurements with
            LastUpdated := types.StringValue now }, ?_, hid, ?_⟩
  · simp [MeasurementResource.Create, tfsdk.Data.Get, tfsdk.Data.Set, hplan, Append_nil, hresp,
      htype, hping, hunk]
  · intro x hx
    simp only [hid]
    simp [hx]

/-- Witness for C1 (amended): a ping request answered with the identifiers `[7, 9]`. -/
theorem Create_ping_id_is_last_witness :
    ∃ st, (MeasurementResource.Create ⟨Example.client [7, 9]⟩ "now"
        ⟨⟨some (Example.model "ping" .unknown)⟩⟩ ⟨⟨none⟩, []⟩).1.State.Raw = some st ∧
      st.ID = types.Int64Value 9 ∧
      (∀ x, [7, 9] = [x] → st.ID = types.Int64Value x) :=
  Create_ping_id_is_last ⟨Example.client [7, 9]⟩ "now"
    ⟨⟨some (Example.model "ping" .unknown)⟩⟩ ⟨⟨none⟩, []⟩ (Example.model "ping" .unknown)
    { Measurements := [7, 9] } rfl rfl (by decide) rfl (by decide)

/-- Counterexample to C1 as stated: a ping request whose upstream call succeeds with the
identifiers `[7, 9]` (first element 7) yields a state whose id is 9, not 7. -/
theorem Create_ping_id_is_first_counterexample :
    (Example.model "ping" .unknown).Type_.ValueString = "ping" ∧
    ((Example.client [7, 9]).Ping (MeasurementResource.createRequest ⟨Example.client [7, 9]⟩
        (Example.model "ping" .unknown))).toOption = some { Measurements := [7, 9] } ∧
    [7, 9].head? = some (7 : Int) ∧
    (MeasurementResource.Create ⟨Example.client [7, 9]⟩ "now"
        ⟨⟨some (Example.model "ping" .unknown)⟩⟩ ⟨⟨none⟩, []⟩).1.State.Raw.map (fun st => st.ID)
      = some (types.Int64Value 9) ∧
    (MeasurementResource.Create ⟨Example.client [7, 9]⟩ "now"
        ⟨⟨some (Example.model "ping" .unknown)⟩⟩ ⟨⟨none⟩, []⟩).1.State.Raw.map (fun st => st.ID)
      ≠ some (types.Int64Value 7) := by
  decide

/-- C2: for every create request whose plan decodes to `data` with a type other than
`"ping"` (a null or unknown type reads as the empty string), handed a response without
error diagnostics, `Create` reports the error diagnostic `Type Error` with detail
`Measurement type <type> not supported!`, makes no call on the upstream client (in
particular none on the creation endpoint) and leaves the response state as it was. -/
theorem Create_non_ping_unsupported (r : MeasurementResource) (now : String)
    (req : resource.CreateRequest) (resp : resource.CreateResponse)
    (data : MeasurementResourceModel)
    (hplan : req.Plan.Raw = some data)
    (hresp : diag.Diagnostics.HasError resp.Diagnostics = false)
    (htype : data.Type_.ValueString ≠ "ping") :
    diag.NewErrorDiagnostic "Type Error"
        ("Measurement type " ++ data.Type_.ValueString ++ " not supported!") ∈
      (MeasurementResource.Create r now req resp).1.Diagnostics ∧
    diag.Diagnostics.HasError (MeasurementResource.Create r now req resp).1.Diagnostics = true ∧
    (MeasurementResource.Create r now req resp).2 = [] ∧
    (MeasurementResource.Create r now req resp).1.State = resp.State := by
  simp [MeasurementResource.Create, tfsdk.Data.Get, hplan, Append_nil, hresp, htype,
    AddError_mem, AddError_HasError]

/-- Witness for C2: a create request of type `dns`, which the schema accepts. -/
theorem Create_non_ping_unsupported_witness :
    (Example.model "dns" .unknown).Type_.ValueString ≠ "ping" ∧
    diag.NewErrorDiagnostic "Type Error" "Measurement type dns not supported!" ∈
      (MeasurementResource.Create ⟨Example.client [7]⟩ "now"
        ⟨⟨some (Example.model "dns" .unknown)⟩⟩ ⟨⟨none⟩, []⟩).1.Diagnostics ∧
    (MeasurementResource.Create ⟨Example.client [7]⟩ "now"
        ⟨⟨some (Example.model "dns" .unknown)⟩⟩ ⟨⟨none⟩, []⟩).2 = [] ∧
    (MeasurementResource.Create ⟨Example.client [7]⟩ "now"
        ⟨⟨some (Example.model "dns" .unknown)⟩⟩ ⟨⟨none⟩, []⟩).1.State = ⟨none⟩ :=
  have h := Create_non_ping_unsupported ⟨Example.client [7]⟩ "now"
    ⟨⟨some (Example.model "dns" .unknown)⟩⟩ ⟨⟨none⟩, []⟩ (Example.model "dns" .unknown)
    rfl rfl (by decide)
  ⟨by decide, h.1, h.2.2.1, h.2.2.2⟩

/-! ## MeasurementResource.Update -/

/-- C3: for every update request and every response handed in, `Update` ends with an error,
makes no call on the upstream client and leaves the response state (the prior state)
untouched; whenever the plan decodes and the response carries no earlier error, the error
reported is the fixed diagnostic with summary `Update not supported!` and detail
`Update is currently not supported!`, whatever the planned and prior values are. -/
theorem Update_always_unsupported (r : MeasurementResource)
    (req : resource.UpdateRequest) (resp : resource.UpdateResponse) :
    diag.Diagnostics.HasError (MeasurementResource.Update r req resp).1.Diagnostics = true ∧
    (MeasurementResource.Update r req resp).2 = [] ∧
    (MeasurementResource.Update r req resp).1.State = resp.State ∧
    (∀ data, req.Plan.Raw = some data → diag.Diagnostics.HasError resp.Diagnostics = false →
      diag.NewErrorDiagnostic "Update not supported!" "Update is currently not supported!" ∈
        (MeasurementResource.Update r req resp).1.Diagnostics) := by
  refine ⟨?_, ?_, ?_, ?_⟩
  · unfold MeasurementResource.Update
    simp only
    split
    · next h => exact h
    · exact AddError_HasError _ _ _
  · unfold MeasurementResource.Update
    simp only
    split <;> rfl
  · unfold MeasurementResource.Update
    simp only
    split <;> rfl
  · intro data hplan hresp
    simp [MeasurementResource.Update, tfsdk.Data.Get, hplan, Append_nil, hresp, AddError_mem]

/-- Witness for C3: an update request for measurement 42. -/
theorem Update_always_unsupported_witness :
    diag.NewErrorDiagnostic "Update not supported!" "Update is currently not supported!" ∈
      (MeasurementResource.Update ⟨Example.client []⟩
        ⟨⟨some (Example.model "ping" (.known 42))⟩, ⟨some (Example.model "ping" (.known 42))⟩⟩
        ⟨⟨some (Example.model "ping" (.known 42))⟩, []⟩).1.Diagnostics :=
  (Update_always_unsupported ⟨Example.client []⟩
    ⟨⟨some (Example.model "ping" (.known 42))⟩, ⟨some (Example.model "ping" (.known 42))⟩⟩
    ⟨⟨some (Example.model "ping" (.known 42))⟩, []⟩).2.2.2 _ rfl rfl

/-! ## MeasurementResource.ImportState -/

/-- C4: for every import ID that is not a base-10 integer numeral (an optional sign followed
by one or more decimal digits), `ImportState` reports the error diagnostic
`Error importing item`, whose detail carries the text of the `strconv.ParseInt` error for that
ID, leaves the response state unchanged (the id attribute is not set) and makes no call on
the upstream client. -/
theorem ImportState_rejects_non_numeral (r : MeasurementResource) (Quote : String → String)
    (req : resource.ImportStateRequest) (resp : resource.ImportStateResponse)
    (hid : base10Numeral req.ID = none) :
    (∃ e : strconv.Err,
      diag.NewErrorDiagnostic "Error importing item"
          ("Could not import item, unexpected error (ID should be an integer): " ++
            strconv.NumError.Error Quote { Func := "ParseInt", Num := req.ID, Err := e }) ∈
        (MeasurementResource.ImportState r Quote req resp).1.Diagnostics) ∧
    diag.Diagnostics.HasError
      (MeasurementResource.ImportState r Quote req resp).1.Diagnostics = true ∧
    (MeasurementResource.ImportState r Quote req resp).1.State = resp.State ∧
    (MeasurementResource.ImportState r Quote req resp).2 = [] := by
  obtain ⟨e, he⟩ := ParseInt_of_non_numeral req.ID hid
  have hp : strconv.ParseInt req.ID =
      ((strconv.ParseInt req.ID).1, some { Func := "ParseInt", Num := req.ID, Err := e }) := by
    rw [← he]
  unfold MeasurementResource.ImportState
  rw [hp]
  exact ⟨⟨e, AddError_mem _ _ _⟩, AddError_HasError _ _ _, rfl, rfl⟩

/-- Witness for C4: the empty string, letters, a decimal point and an embedded space. -/
theorem ImportState_rejects_non_numeral_witness :
    (base10Numeral "" = none ∧
      (MeasurementResource.ImportState ⟨Example.client []⟩ Example.Quote ⟨""⟩
        ⟨⟨none⟩, []⟩).1.State = ⟨none⟩) ∧
    (base10Numeral "abc" = none ∧
      (MeasurementResource.ImportState ⟨Example.client []⟩ Example.Quote ⟨"abc"⟩
        ⟨⟨none⟩, []⟩).1.State = ⟨none⟩) ∧
    (base10Numeral "1.5" = none ∧
      (MeasurementResource.ImportState ⟨Example.client []⟩ Example.Quote ⟨"1.5"⟩
        ⟨⟨none⟩, []⟩).1.State = ⟨none⟩) ∧
    (base10Numeral "1 2" = none ∧
      (MeasurementResource.ImportState ⟨Example.client []⟩ Example.Quote ⟨"1 2"⟩
        ⟨⟨none⟩, []⟩).1.State = ⟨none⟩) :=
  ⟨⟨by decide, (ImportState_rejects_non_numeral ⟨Example.client []⟩ Example.Quote ⟨""⟩
      ⟨⟨none⟩, []⟩ (by decide)).2.2.1⟩,
   ⟨by decide, (ImportState_rejects_non_numeral ⟨Example.client []⟩ Example.Quote ⟨"abc"⟩
      ⟨⟨none⟩, []⟩ (by decide)).2.2.1⟩,
   ⟨by decide, (ImportState_rejects_non_numeral ⟨Example.client []⟩ Example.Quote ⟨"1.5"⟩
      ⟨⟨none⟩, []⟩ (by decide)).2.2.1⟩,
   ⟨by decide, (ImportState_rejects_non_numeral ⟨Example.client []⟩ Example.Quote ⟨"1 2"⟩
      ⟨⟨none⟩, []⟩ (by decide)).2.2.1⟩⟩

/-- C5 (amended): for every import ID that is a base-10 integer numeral denoting an integer
`n` within the 64 bit signed range, `ImportState` adds no diagnostic, makes no upstream call,
and sets the id attribute of the state to `n` while every other attribute keeps the value it
had (null in an empty import state); a subsequent `Read` of that state, handed a response
without error diagnostics, calls the upstream fetch exactly once, for identifier `n`. -/
theorem ImportState_sets_id_in_range (r : MeasurementResource) (Quote : String → String)
    (req : resource.ImportStateRequest) (resp : resource.ImportStateResponse) (n : Int)
    (hid : base10Numeral req.ID = some n)
    (hlo : -9223372036854775808 ≤ n) (hhi : n ≤ 9223372036854775807) :
    (MeasurementResource.ImportState r Quote req resp).1.Diagnostics = resp.Diagnostics ∧
    (MeasurementResource.ImportState r Quote req resp).2 = [] ∧
    (MeasurementResource.ImportState r Quote req resp).1.State.Raw =
      some { resp.State.Raw.getD MeasurementResourceModel.zero with ID := .known n } ∧
    (∀ (reader : MeasurementResource) (readResp : resource.ReadResponse),
      diag.Diagnostics.HasError readResp.Diagnostics = false →
      (MeasurementResource.Read reader
        { State := (MeasurementResource.ImportState r Quote req resp).1.State } readResp).2 =
        [atlas.Call.GetMeasurement n true]) := by
  have hp := ParseInt_of_numeral req.ID n hid hlo hhi
  have hout : MeasurementResource.ImportState r Quote req resp =
      ({ resp with State :=
          { Raw := some { resp.State.Raw.getD MeasurementResourceModel.zero with
              ID := .known n } } }, []) := by
    unfold MeasurementResource.ImportState
    rw [hp]
    rfl
  rw [hout]
  refine ⟨rfl, rfl, rfl, ?_⟩
  intro reader readResp hresp
  simp only [MeasurementResource.Read, tfsdk.Data.Get, Append_nil, hresp]
  simp only [basetypes.Int64Value.IsUnknown, basetypes.Int64Value.ValueInt64]
  cases reader.client.GetMeasurement n true <;> simp

/-- Witness for C5 (amended): importing `"42"` into an empty state. -/
theorem ImportState_sets_id_in_range_witness :
    base10Numeral "42" = some 42 ∧
    (MeasurementResource.ImportState ⟨Example.client []⟩ Example.Quote ⟨"42"⟩
      ⟨⟨none⟩, []⟩).1.State.Raw = some { MeasurementResourceModel.zero with ID := .known 42 } :=
  ⟨by decide, (ImportState_sets_id_in_range ⟨Example.client []⟩ Example.Quote ⟨"42"⟩
      ⟨⟨none⟩, []⟩ 42 (by decide) (by decide) (by decide)).2.2.1⟩

/-- Counterexample to C5 as stated: `"9223372036854775808"` is a base-10 integer numeral
(it denotes 2^63), yet `ImportState` reports an error and does not set the id. -/
theorem ImportState_numeral_out_of_range_counterexample :
    base10Numeral "9223372036854775808" = some 9223372036854775808 ∧
    MeasurementResource.ImportState ⟨Example.client []⟩ Example.Quote
        ⟨"9223372036854775808"⟩ ⟨⟨none⟩, []⟩ =
      (⟨⟨none⟩, [diag.NewErrorDiagnostic "Error importing item"
          "Could not import item, unexpected error (ID should be an integer): strconv.ParseInt: parsing \"9223372036854775808\": value out of range"]⟩,
        []) := by
  decide

/-! ## MeasurementResource.Read -/

/-- Appending `f p` for each `p` in turn to a non-nil slice appends the mapped list. -/
theorem Slice_append_foldl {α β : Type} (f : α → β) (ps : List α) (acc : List β) :
    ps.foldl (fun s p => Slice.append s (f p)) (some acc) = some (acc ++ ps.map f) := by
  induction ps generalizing acc with
  | nil => simp
  | cons p ps ih =>
    rw [List.foldl_cons]
    have h : Slice.append (some acc) (f p) = some (acc ++ [f p]) := rfl
    rw [h, ih]
    simp

/-- The probe-set loop of `Read` maps the participation requests in order. -/
theorem readProbeSet_eq_map (m : atlas.Measurement) :
    MeasurementResource.readProbeSet m =
      some (m.ParticipationRequests.map (fun participation =>
        { Number := .known participation.Requested,
          Type_ := .known participation.Type_,
          Value := .known participation.Value })) := by
  unfold MeasurementResource.readProbeSet
  rw [Slice_append_foldl]
  rfl

/-- C6 (amended): for every prior state that decodes to a model whose id is unknown, `Read` is
a no-op: it makes no call on the upstream client, adds no diagnostic and returns the response
(whose state the framework pre-populates with the prior state) unchanged. -/
theorem Read_unknown_id_noop (r : MeasurementResource)
    (req : resource.ReadRequest) (resp : resource.ReadResponse)
    (data : MeasurementResourceModel)
    (hstate : req.State.Raw = some data)
    (hid : data.ID = .unknown) :
    MeasurementResource.Read r req resp = (resp, []) := by
  unfold MeasurementResource.Read
  simp only [tfsdk.Data.Get, hstate, Append_nil, hid, basetypes.Int64Value.IsUnknown]
  split <;> rfl

/-- Witness for C6 (amended): a state whose id is unknown. -/
theorem Read_unknown_id_noop_witness :
    (Example.model "ping" .unknown).ID = .unknown ∧
    MeasurementResource.Read ⟨Example.client []⟩ ⟨⟨some (Example.model "ping" .unknown)⟩⟩
        ⟨⟨some (Example.model "ping" .unknown)⟩, []⟩ =
      (⟨⟨some (Example.model "ping" .unknown)⟩, []⟩, []) :=
  ⟨rfl, Read_unknown_id_noop ⟨Example.client []⟩ ⟨⟨some (Example.model "ping" .unknown)⟩⟩
    ⟨⟨some (Example.model "ping" .unknown)⟩, []⟩ (Example.model "ping" .unknown) rfl rfl⟩

/-- Counterexample to C6 as stated: for a prior state whose id is unset (null), `Read` calls the
upstream fetch (for identifier 0) and replaces the state by what the fetch returned. -/
theorem Read_null_id_counterexample :
    (Example.model "ping" .null).ID.IsNull = true ∧
    (MeasurementResource.Read ⟨Example.client []⟩ ⟨⟨some (Example.model "ping" .null)⟩⟩
        ⟨⟨some (Example.model "ping" .null)⟩, []⟩).2 = [atlas.Call.GetMeasurement 0 true] ∧
    (MeasurementResource.Read ⟨Example.client []⟩ ⟨⟨some (Example.model "ping" .null)⟩⟩
        ⟨⟨some (Example.model "ping" .null)⟩, []⟩).1.State ≠
      ⟨some (Example.model "ping" .null)⟩ := by
  decide

/-- C7: for every prior state that decodes to a model with a known id, handed a response
without error diagnostics, and every measurement `m` that the upstream fetch for that id
returns, `Read` calls the fetch once for that id and writes a state whose id, description,
type, target, interval, packets and size are those of `m`, and whose probe_set has exactly
one entry per participation request of `m`, in the same order, with type, value and number
taken from the request's type, value and requested count. -/
theorem Read_overwrites_from_measurement (r : MeasurementResource)
    (req : resource.ReadRequest) (resp : resource.ReadResponse)
    (data : MeasurementResourceModel) (id : Int) (m : atlas.Measurement)
    (hstate : req.State.Raw = some data)
    (hresp : diag.Diagnostics.HasError resp.Diagnostics = false)
    (hid : data.ID = .known id)
    (hfetch : r.client.GetMeasurement id true = .ok m) :
    (MeasurementResource.Read r req resp).2 = [atlas.Call.GetMeasurement id true] ∧
    (MeasurementResource.Read r req resp).1.Diagnostics = resp.Diagnostics ∧
    ∃ st, (MeasurementResource.Read r req resp).1.State.Raw = some st ∧
      st.ID = .known m.ID ∧
      st.Description = .known m.Description ∧
      st.Type_ = .known m.Type_ ∧
      st.Target = .known m.Target ∧
      st.Interval = .known m.Interval ∧
      st.Packets = .known m.Packets ∧
      st.Size = .known m.Size ∧
      st.ProbeSet = some (m.ParticipationRequests.map (fun participation =>
        { Number := .known participation.Requested,
          Type_ := .known participation.Type_,
          Value := .known participation.Value })) := by
  simp [MeasurementResource.Read, tfsdk.Data.Get, tfsdk.Data.Set, hstate, Append_nil, hresp, hid,
    basetypes.Int64Value.IsUnknown, basetypes.Int64Value.ValueInt64, hfetch,
    readProbeSet_eq_map, types.Int64Value, types.StringValue]

/-- Witness for C7: refreshing measurement 42, which has two participation requests. -/
theorem Read_overwrites_from_measurement_witness :
    (MeasurementResource.Read ⟨Example.client []⟩ ⟨⟨some (Example.model "ping" (.known 42))⟩⟩
        ⟨⟨some (Example.model "ping" (.known 42))⟩, []⟩).2 =
      [atlas.Call.GetMeasurement 42 true] ∧
    (MeasurementResource.Read ⟨Example.client []⟩ ⟨⟨some (Example.model "ping" (.known 42))⟩⟩
        ⟨⟨some (Example.model "ping" (.known 42))⟩, []⟩).1.State.Raw.map (fun st => st.ProbeSet) =
      some (some [ { Number := .known 1, Type_ := .known "probes", Value := .known "123" },
                   { Number := .known 2, Type_ := .known "country", Value := .known "SS" } ]) :=
  have h := Read_overwrites_from_measurement ⟨Example.client []⟩
    ⟨⟨some (Example.model "ping" (.known 42))⟩⟩ ⟨⟨some (Example.model "ping" (.known 42))⟩, []⟩
    (Example.model "ping" (.known 42)) 42 Example.measurement rfl rfl rfl rfl
  ⟨h.1, by decide⟩

/-! ## RipeAtlasProvider.Configure -/

/-- A collection without error holds no error-severity diagnostic. -/
theorem not_mem_of_no_error (ds : diag.Diagnostics) (d : diag.Diagnostic)
    (hds : diag.Diagnostics.HasError ds = false) (hd : d.Severity = diag.Severity.Error) :
    d ∉ ds := by
  intro hmem
  rw [HasError_of_mem ds d hmem hd] at hds
  exact absurd hds (by simp)

/-- C8 (amended): for every provider configuration that decodes with a known or null
`api_key`, every environment and every response without earlier error diagnostics, the key
`Configure` uses is the configured value when that is not null and the environment variable
`RIPE_ATLAS_API_KEY` otherwise.  When that key is empty, `Configure` reports the error
`Missing RIPE Atlas API Key`, constructs no client and leaves `DataSourceData` and
`ResourceData` as they were; when it is not empty, that error is not reported, the client
constructor is called exactly once, with that key, and, if it succeeds with a client, that
same client is assigned to both `DataSourceData` and `ResourceData`. -/
theorem Configure_missing_key_iff_selected_empty (p : RipeAtlasProvider)
    (Getenv : String → String) (NewClient : atlas.Config → Except String atlas.Client)
    (req : provider.ConfigureRequest) (resp : provider.ConfigureResponse)
    (data : RipeAtlasProviderModel)
    (hcfg : req.Config.Raw = some data)
    (hknown : data.ApiKey.IsUnknown = false)
    (hresp : diag.Diagnostics.HasError resp.Diagnostics = false) :
    ((if data.ApiKey.IsNull then Getenv "RIPE_ATLAS_API_KEY" else data.ApiKey.ValueString) = "" →
      RipeAtlasProvider.missingKeyDiagnostic ∈
        (RipeAtlasProvider.Configure p Getenv NewClient req resp).1.Diagnostics ∧
      (RipeAtlasProvider.Configure p Getenv NewClient req resp).2 = [] ∧
      (RipeAtlasProvider.Configure p Getenv NewClient req resp).1.DataSourceData =
        resp.DataSourceData ∧
      (RipeAtlasProvider.Configure p Getenv NewClient req resp).1.ResourceData =
        resp.ResourceData) ∧
    ((if data.ApiKey.IsNull then Getenv "RIPE_ATLAS_API_KEY" else data.ApiKey.ValueString) ≠ "" →
      RipeAtlasProvider.missingKeyDiagnostic ∉
        (RipeAtlasProvider.Configure p Getenv NewClient req resp).1.Diagnostics ∧
      (RipeAtlasProvider.Configure p Getenv NewClient req resp).2 =
        [atlas.Call.NewClient { APIKey :=
          if data.ApiKey.IsNull then Getenv "RIPE_ATLAS_API_KEY" else data.ApiKey.ValueString }] ∧
      (∀ client,
        NewClient { APIKey :=
          if data.ApiKey.IsNull then Getenv "RIPE_ATLAS_API_KEY" else data.ApiKey.ValueString } =
            .ok client →
        (RipeAtlasProvider.Configure p Getenv NewClient req resp).1.DataSourceData =
          some client ∧
        (RipeAtlasProvider.Configure p Getenv NewClient req resp).1.ResourceData =
          some client)) := by
  have hsel : RipeAtlasProvider.selectApiKey Getenv data =
      (if data.ApiKey.IsNull then Getenv "RIPE_ATLAS_API_KEY" else data.ApiKey.ValueString) := by
    unfold RipeAtlasProvider.selectApiKey
    cases data.ApiKey.IsNull <;> simp
  have hmiss : RipeAtlasProvider.missingKeyDiagnostic ∉ resp.Diagnostics :=
    not_mem_of_no_error _ _ hresp rfl
  constructor
  · intro hkey
    rw [← hsel] at hkey
    simp [RipeAtlasProvider.Configure, tfsdk.Data.Get, hcfg, Append_nil, hresp, hknown, hkey,
      AddAttributeError_HasError, AddAttributeError_mem_iff,
      RipeAtlasProvider.missingKeyDiagnostic]
  · intro hkey
    rw [← hsel] at hkey ⊢
    cases hnew : NewClient { APIKey := RipeAtlasProvider.selectApiKey Getenv data } with
    | error err =>
      simp [RipeAtlasProvider.Configure, tfsdk.Data.Get, hcfg, Append_nil, hresp, hknown, hkey,
        hnew, AddError_mem_iff, hmiss]
      intro h
      have hpath := congrArg diag.Diagnostic.Path h
      simp [RipeAtlasProvider.missingKeyDiagnostic, diag.NewAttributeErrorDiagnostic,
        diag.NewErrorDiagnostic] at hpath
    | ok client =>
      simp [RipeAtlasProvider.Configure, tfsdk.Data.Get, hcfg, Append_nil, hresp, hknown, hkey,
        hnew, hmiss]

/-- Witness for C8 (amended): the key comes from the environment, the configuration is null. -/
theorem Configure_missing_key_iff_selected_empty_witness :
    RipeAtlasProvider.missingKeyDiagnostic ∉
      (RipeAtlasProvider.Configure ⟨"test"⟩ (Example.Getenv "E") Example.NewClient
        ⟨⟨some ⟨.null⟩⟩⟩ ⟨none, none, []⟩).1.Diagnostics ∧
    (RipeAtlasProvider.Configure ⟨"test"⟩ (Example.Getenv "E") Example.NewClient
        ⟨⟨some ⟨.null⟩⟩⟩ ⟨none, none, []⟩).2 = [atlas.Call.NewClient { APIKey := "E" }] :=
  have h := (Configure_missing_key_iff_selected_empty ⟨"test"⟩ (Example.Getenv "E")
    Example.NewClient ⟨⟨some ⟨.null⟩⟩⟩ ⟨none, none, []⟩ ⟨.null⟩ rfl rfl rfl).2 (by decide)
  ⟨h.1, h.2.1⟩

/-- Counterexample to C8 as stated: the configured `api_key` is the empty string and the
environment variable `RIPE_ATLAS_API_KEY` supplies the non-empty key `E`; `Configure`
nevertheless reports `Missing RIPE Atlas API Key`, constructs no client and hands none on. -/
theorem Configure_empty_config_key_counterexample :
    (basetypes.StringValue.known "").IsUnknown = false ∧
    Example.Getenv "E" "RIPE_ATLAS_API_KEY" ≠ "" ∧
    (RipeAtlasProvider.Configure ⟨"test"⟩ (Example.Getenv "E") Example.NewClient
        ⟨⟨some ⟨.known ""⟩⟩⟩ ⟨none, none, []⟩).1.Diagnostics =
      [RipeAtlasProvider.missingKeyDiagnostic] ∧
    (RipeAtlasProvider.Configure ⟨"test"⟩ (Example.Getenv "E") Example.NewClient
        ⟨⟨some ⟨.known ""⟩⟩⟩ ⟨none, none, []⟩).2 = [] ∧
    (RipeAtlasProvider.Configure ⟨"test"⟩ (Example.Getenv "E") Example.NewClient
        ⟨⟨some ⟨.known ""⟩⟩⟩ ⟨none, none, []⟩).1.ResourceData.isNone = true ∧
    (RipeAtlasProvider.Configure ⟨"test"⟩ (Example.Getenv "E") Example.NewClient
        ⟨⟨some ⟨.known ""⟩⟩⟩ ⟨none, none, []⟩).1.DataSourceData.isNone = true :=
  ⟨rfl, by decide, rfl, rfl, rfl, rfl⟩

/-- C9 (amended): the API key used to construct the client is the environment variable
`RIPE_ATLAS_API_KEY`, overridden by the configuration value whenever that value is set.  For
every environment, every client constructor, every configuration that decodes and every
response without earlier error diagnostics: with a configured key `c` that is known and not
empty the client is built with key `c`, whatever the environment holds (the constructor is
applied exactly once, to key `c`, and the client it returns is the one handed to data sources
and resources; its error, if it fails, is reported); with a null configured value and a
non-empty environment value `e` the same holds with key `e`; and when the configured value is
unknown, or the selected key (the configured value when not null, the environment value
otherwise) is empty, no client is built: the constructor is not called, an error is reported
and `DataSourceData` and `ResourceData` stay as they were. -/
theorem Configure_key_precedence (p : RipeAtlasProvider)
    (Getenv : String → String) (NewClient : atlas.Config → Except String atlas.Client)
    (req : provider.ConfigureRequest) (resp : provider.ConfigureResponse)
    (data : RipeAtlasProviderModel)
    (hcfg : req.Config.Raw = some data)
    (hresp : diag.Diagnostics.HasError resp.Diagnostics = false) :
    (∀ c, data.ApiKey = .known c → c ≠ "" →
      (RipeAtlasProvider.Configure p Getenv NewClient req resp).2 =
        [atlas.Call.NewClient { APIKey := c }] ∧
      (∀ client, NewClient { APIKey := c } = .ok client →
        (RipeAtlasProvider.Configure p Getenv NewClient req resp).1.DataSourceData =
          some client ∧
        (RipeAtlasProvider.Configure p Getenv NewClient req resp).1.ResourceData =
          some client ∧
        (RipeAtlasProvider.Configure p Getenv NewClient req resp).1.Diagnostics =
          resp.Diagnostics) ∧
      (∀ err, NewClient { APIKey := c } = .error err →
        diag.Diagnostics.HasError
          (RipeAtlasProvider.Configure p Getenv NewClient req resp).1.Diagnostics = true ∧
        (RipeAtlasProvider.Configure p Getenv NewClient req resp).1.DataSourceData =
          resp.DataSourceData ∧
        (RipeAtlasProvider.Configure p Getenv NewClient req resp).1.ResourceData =
          resp.ResourceData)) ∧
    (data.ApiKey = .null → Getenv "RIPE_ATLAS_API_KEY" ≠ "" →
      (RipeAtlasProvider.Configure p Getenv NewClient req resp).2 =
        [atlas.Call.NewClient { APIKey := Getenv "RIPE_ATLAS_API_KEY" }] ∧
      (∀ client, NewClient { APIKey := Getenv "RIPE_ATLAS_API_KEY" } = .ok client →
        (RipeAtlasProvider.Configure p Getenv NewClient req resp).1.DataSourceData =
          some client ∧
        (RipeAtlasProvider.Configure p Getenv NewClient req resp).1.ResourceData =
          some client ∧
        (RipeAtlasProvider.Configure p Getenv NewClient req resp).1.Diagnostics =
          resp.Diagnostics) ∧
      (∀ err, NewClient { APIKey := Getenv "RIPE_ATLAS_API_KEY" } = .error err →
        diag.Diagnostics.HasError
          (RipeAtlasProvider.Configure p Getenv NewClient req resp).1.Diagnostics = true ∧
        (RipeAtlasProvider.Configure p Getenv NewClient req resp).1.DataSourceData =
          resp.DataSourceData ∧
        (RipeAtlasProvider.Configure p Getenv NewClient req resp).1.ResourceData =
          resp.ResourceData)) ∧
    ((data.ApiKey.IsUnknown = true ∨
        (if data.ApiKey.IsNull then Getenv "RIPE_ATLAS_API_KEY" else data.ApiKey.ValueString) =
          "") →
      (RipeAtlasProvider.Configure p Getenv NewClient req resp).2 = [] ∧
      diag.Diagnostics.HasError
        (RipeAtlasProvider.Configure p Getenv NewClient req resp).1.Diagnostics = true ∧
      (RipeAtlasProvider.Configure p Getenv NewClient req resp).1.DataSourceData =
        resp.DataSourceData ∧
      (RipeAtlasProvider.Configure p Getenv NewClient req resp).1.ResourceData =
        resp.ResourceData) := by
  have hsel : RipeAtlasProvider.selectApiKey Getenv data =
      (if data.ApiKey.IsNull then Getenv "RIPE_ATLAS_API_KEY" else data.ApiKey.ValueString) := by
    unfold RipeAtlasProvider.selectApiKey
    cases data.ApiKey.IsNull <;> simp
  refine ⟨?_, ?_, ?_⟩
  · intro c hc hne
    cases hnew : NewClient { APIKey := c } <;>
      simp [RipeAtlasProvider.Configure, tfsdk.Data.Get, hcfg, Append_nil, hresp, hc,
        RipeAtlasProvider.selectApiKey, basetypes.StringValue.IsUnknown,
        basetypes.StringValue.IsNull, basetypes.StringValue.ValueString, hne, hnew,
        AddError_HasError]
  · intro hnull hne
    cases hnew : NewClient { APIKey := Getenv "RIPE_ATLAS_API_KEY" } <;>
      simp [RipeAtlasProvider.Configure, tfsdk.Data.Get, hcfg, Append_nil, hresp, hnull,
        RipeAtlasProvider.selectApiKey, basetypes.StringValue.IsUnknown,
        basetypes.StringValue.IsNull, hne, hnew, AddError_HasError]
  · intro h
    by_cases hunk : data.ApiKey.IsUnknown = true
    · simp [RipeAtlasProvider.Configure, tfsdk.Data.Get, hcfg, Append_nil, hresp, hunk,
        AddAttributeError_HasError]
    · have hkey : RipeAtlasProvider.selectApiKey Getenv data = "" := by
        rw [hsel]
        rcases h with h | h
        · exact absurd h hunk
        · exact h
      simp [RipeAtlasProvider.Configure, tfsdk.Data.Get, hcfg, Append_nil, hresp, hunk, hkey,
        AddAttributeError_HasError]

/-- Witness for C9 (amended): the configured key `X` overrides the environment value `E`,
and the client the constructor returns is handed on. -/
theorem Configure_key_precedence_witness :
    (RipeAtlasProvider.Configure ⟨"test"⟩ (Example.Getenv "E") Example.NewClient
        ⟨⟨some ⟨.known "X"⟩⟩⟩ ⟨none, none, []⟩).2 = [atlas.Call.NewClient { APIKey := "X" }] ∧
    (RipeAtlasProvider.Configure ⟨"test"⟩ (Example.Getenv "E") Example.NewClient
        ⟨⟨some ⟨.known "X"⟩⟩⟩ ⟨none, none, []⟩).1.ResourceData = some (Example.client []) ∧
    (RipeAtlasProvider.Configure ⟨"test"⟩ (Example.Getenv "E") Example.NewClient
        ⟨⟨some ⟨.known "X"⟩⟩⟩ ⟨none, none, []⟩).1.DataSourceData = some (Example.client []) :=
  have h := (Configure_key_precedence ⟨"test"⟩ (Example.Getenv "E") Example.NewClient
    ⟨⟨some ⟨.known "X"⟩⟩⟩ ⟨none, none, []⟩ ⟨.known "X"⟩ rfl rfl).1 "X" rfl (by decide)
  ⟨h.1, (h.2.1 (Example.client []) rfl).2.1, (h.2.1 (Example.client []) rfl).1⟩

/-- Counterexample to C9 as stated: the configured `api_key` is the empty string, a non-null
value, and no environment variable is set; no client is built with that key: the constructor
is not called, the missing-key error is reported and no client is handed on. -/
theorem Configure_non_null_key_builds_no_client_counterexample :
    (basetypes.StringValue.known "").IsNull = false ∧
    (RipeAtlasProvider.Configure ⟨"test"⟩ (Example.Getenv "") Example.NewClient
        ⟨⟨some ⟨.known ""⟩⟩⟩ ⟨none, none, []⟩).2 = [] ∧
    atlas.Call.NewClient { APIKey := "" } ∉
      (RipeAtlasProvider.Configure ⟨"test"⟩ (Example.Getenv "") Example.NewClient
        ⟨⟨some ⟨.known ""⟩⟩⟩ ⟨none, none, []⟩).2 ∧
    (RipeAtlasProvider.Configure ⟨"test"⟩ (Example.Getenv "") Example.NewClient
        ⟨⟨some ⟨.known ""⟩⟩⟩ ⟨none, none, []⟩).1.ResourceData.isNone = true ∧
    (RipeAtlasProvider.Configure ⟨"test"⟩ (Example.Getenv "") Example.NewClient
        ⟨⟨some ⟨.known ""⟩⟩⟩ ⟨none, none, []⟩).1.DataSourceData.isNone = true ∧
    diag.Diagnostics.HasError
      (RipeAtlasProvider.Configure ⟨"test"⟩ (Example.Getenv "") Example.NewClient
        ⟨⟨some ⟨.known ""⟩⟩⟩ ⟨none, none, []⟩).1.Diagnostics = true :=
  ⟨rfl, rfl, by decide, rfl, rfl, rfl⟩

/-! ## MeasurementDataSource.Read -/

/-- C10: for every data-source configuration that decodes, handed a response without error
diagnostics, `MeasurementDataSource.Read` makes exactly one upstream call, to the listing
endpoint, and the filter map it passes contains `mine = "true"`, contains `hidden = "true"`
if and only if the configured hidden attribute is the known value true (the key is absent
when hidden is false, null or unknown), and contains no other key. -/
theorem DataSource_Read_filter (d : MeasurementDataSource)
    (req : datasource.ReadRequest MeasurementDataSourceModel)
    (resp : datasource.ReadResponse MeasurementDataSourceModel)
    (data : MeasurementDataSourceModel)
    (hcfg : req.Config.Raw = some data)
    (hresp : diag.Diagnostics.HasError resp.Diagnostics = false) :
    ∃ request : GoMap,
      (MeasurementDataSource.Read d req resp).2 = [atlas.Call.GetMeasurements request] ∧
      request.get "mine" = some "true" ∧
      (request.get "hidden" = some "true" ↔ data.Hidden = .known true) ∧
      (data.Hidden ≠ .known true → request.get "hidden" = none) ∧
      (∀ k, k ≠ "mine" → k ≠ "hidden" → request.get k = none) := by
  refine ⟨MeasurementDataSource.readFilter data, ?_, ?_, ?_, ?_, ?_⟩
  · simp only [MeasurementDataSource.Read, tfsdk.Data.Get, hcfg, Append_nil, hresp]
    cases d.client.GetMeasurements (MeasurementDataSource.readFilter data) <;> simp
  · rcases hh : data.Hidden with _ | _ | b
    · simp [MeasurementDataSource.readFilter, hh, basetypes.BoolValue.ValueBool, GoMap.set, GoMap.get]
    · simp [MeasurementDataSource.readFilter, hh, basetypes.BoolValue.ValueBool, GoMap.set, GoMap.get]
    · cases b <;>
        simp [MeasurementDataSource.readFilter, hh, basetypes.BoolValue.ValueBool, GoMap.set, GoMap.get]
  · rcases hh : data.Hidden with _ | _ | b
    · simp [MeasurementDataSource.readFilter, hh, basetypes.BoolValue.ValueBool, GoMap.set, GoMap.get]
    · simp [MeasurementDataSource.readFilter, hh, basetypes.BoolValue.ValueBool, GoMap.set, GoMap.get]
    · cases b <;>
        simp [MeasurementDataSource.readFilter, hh, basetypes.BoolValue.ValueBool, GoMap.set, GoMap.get]
  · intro hne
    rcases hh : data.Hidden with _ | _ | b
    · simp [MeasurementDataSource.readFilter, hh, basetypes.BoolValue.ValueBool, GoMap.set, GoMap.get]
    · simp [MeasurementDataSource.readFilter, hh, basetypes.BoolValue.ValueBool, GoMap.set, GoMap.get]
    · cases b
      · simp [MeasurementDataSource.readFilter, hh, basetypes.BoolValue.ValueBool, GoMap.set, GoMap.get]
      · exact absurd hh hne
  · intro k hk1 hk2
    rcases hh : data.Hidden with _ | _ | b
    · simp [MeasurementDataSource.readFilter, hh, basetypes.BoolValue.ValueBool, GoMap.set, GoMap.get, Ne.symm hk1]
    · simp [MeasurementDataSource.readFilter, hh, basetypes.BoolValue.ValueBool, GoMap.set, GoMap.get, Ne.symm hk1]
    · cases b <;>
        simp [MeasurementDataSource.readFilter, hh, basetypes.BoolValue.ValueBool, GoMap.set, GoMap.get,
          Ne.symm hk1, Ne.symm hk2]

/-- Witness for C10: a configuration asking for hidden measurements. -/
theorem DataSource_Read_filter_witness :
    (MeasurementDataSource.Read ⟨Example.client []⟩ ⟨⟨some ⟨none, .known true⟩⟩⟩
        ⟨⟨none⟩, []⟩).2 =
      [atlas.Call.GetMeasurements [("mine", "true"), ("hidden", "true")]] ∧
    ∃ request : GoMap,
      (MeasurementDataSource.Read ⟨Example.client []⟩ ⟨⟨some ⟨none, .known true⟩⟩⟩
        ⟨⟨none⟩, []⟩).2 = [atlas.Call.GetMeasurements request] ∧
      request.get "mine" = some "true" :=
  have h := DataSource_Read_filter ⟨Example.client []⟩ ⟨⟨some ⟨none, .known true⟩⟩⟩
    ⟨⟨none⟩, []⟩ ⟨none, .known true⟩ rfl rfl
  ⟨by decide, h.imp (fun _ hr => ⟨hr.1, hr.2.1⟩)⟩

/-- The record loop of `MeasurementDataSource.Read` keeps `Hidden`, appends one entry per
record in order, and yields a non-nil slice as soon as there is a record. -/
theorem readEntry_foldl (ms : List atlas.Measurement) (data : MeasurementDataSourceModel) :
    (ms.foldl
        (fun data measurement =>
          { data with Measurements :=
              Slice.append data.Measurements (MeasurementDataSource.readEntry measurement) })
        data).Hidden = data.Hidden ∧
    Slice.elems (ms.foldl
        (fun data measurement =>
          { data with Measurements :=
              Slice.append data.Measurements (MeasurementDataSource.readEntry measurement) })
        data).Measurements =
      Slice.elems data.Measurements ++ ms.map MeasurementDataSource.readEntry ∧
    (ms = [] → (ms.foldl
        (fun data measurement =>
          { data with Measurements :=
              Slice.append data.Measurements (MeasurementDataSource.readEntry measurement) })
        data).Measurements = data.Measurements) ∧
    (ms ≠ [] → (ms.foldl
        (fun data measurement =>
          { data with Measurements :=
              Slice.append data.Measurements (MeasurementDataSource.readEntry measurement) })
        data).Measurements ≠ none) := by
  induction ms generalizing data with
  | nil => simp
  | cons m ms ih =>
    have h := ih { data with Measurements :=
      (Slice.append data.Measurements (MeasurementDataSource.readEntry m)) }
    simp only [List.foldl_cons]
    refine ⟨h.1, ?_, ?_, ?_⟩
    · rw [h.2.1]
      simp [Slice.append, Slice.elems]
    · intro hnil
      exact absurd hnil (by simp)
    · intro _
      by_cases hms : ms = []
      · rw [h.2.2.1 hms]
        simp [Slice.append]
      · exact h.2.2.2 hms

/-- C11: for every data-source configuration that decodes (its computed `measurements`
attribute is null in a configuration), handed a response without error diagnostics, and every
list of records that the listing endpoint returns, `MeasurementDataSource.Read` writes a state
whose measurements hold exactly one entry per returned record, in the same order, each with
the id, description, type, target, interval, packets, size, status name and requested and
scheduled probe counts of its record, and whose hidden value is the configured one.  (With no
record at all the list is left null; otherwise it is a known list.) -/
theorem DataSource_Read_maps_records (d : MeasurementDataSource)
    (req : datasource.ReadRequest MeasurementDataSourceModel)
    (resp : datasource.ReadResponse MeasurementDataSourceModel)
    (data : MeasurementDataSourceModel) (ms : List atlas.Measurement)
    (hcfg : req.Config.Raw = some data)
    (hcomputed : data.Measurements = none)
    (hresp : diag.Diagnostics.HasError resp.Diagnostics = false)
    (hlist : d.client.GetMeasurements (MeasurementDataSource.readFilter data) = .ok ms) :
    ∃ st, (MeasurementDataSource.Read d req resp).1.State.Raw = some st ∧
      Slice.elems st.Measurements = ms.map (fun m =>
        { ID := .known m.ID,
          Description := .known m.Description,
          Type_ := .known m.Type_,
          Target := .known m.Target,
          Interval := .known m.Interval,
          Packets := .known m.Packets,
          Size := .known m.Size,
          Status := .known m.Status.Name,
          Probes := { Requested := .known m.ProbesRequested,
                      Scheduled := .known m.ProbesScheduled } }) ∧
      st.Hidden = data.Hidden ∧
      (st.Measurements = none ↔ ms = []) ∧
      (MeasurementDataSource.Read d req resp).1.Diagnostics = resp.Diagnostics := by
  obtain ⟨h1, h2, h3, h4⟩ := readEntry_foldl ms data
  refine ⟨_, ?_, ?_, h1, ?_, ?_⟩
  · simp only [MeasurementDataSource.Read, tfsdk.Data.Get, tfsdk.Data.Set, hcfg, Append_nil,
      hresp, hlist]
    rfl
  · rw [h2, hcomputed]
    simp only [Slice.elems, List.nil_append]
    rfl
  · constructor
    · intro hnone
      by_contra hne
      exact h4 hne hnone
    · intro hnil
      rw [h3 hnil, hcomputed]
  · simp only [MeasurementDataSource.Read, tfsdk.Data.Get, tfsdk.Data.Set, hcfg, Append_nil,
      hresp, hlist]
    rfl

/-- Witness for C11: a listing that returns one record. -/
theorem DataSource_Read_maps_records_witness :
    ∃ st, (MeasurementDataSource.Read ⟨Example.client []⟩ ⟨⟨some ⟨none, .known true⟩⟩⟩
        ⟨⟨none⟩, []⟩).1.State.Raw = some st ∧
      Slice.elems st.Measurements =
        [ { ID := .known 42, Description := .known "d", Type_ := .known "ping",
            Target := .known "t", Interval := .known 300, Packets := .known 3,
            Size := .known 48, Status := .known "Ongoing",
            Probes := { Requested := .known 3, Scheduled := .known 3 } } ] ∧
      st.Hidden = .known true :=
  (DataSource_Read_maps_records ⟨Example.client []⟩ ⟨⟨some ⟨none, .known true⟩⟩⟩
    ⟨⟨none⟩, []⟩ ⟨none, .known true⟩ [Example.measurement] rfl rfl rfl rfl).imp
    (fun _ h => ⟨h.1, h.2.1, h.2.2.1⟩)

/-! ## Upstream errors -/

/-- C12 (amended): for every upstream error text `e`: `CreditsDataSource.Read`,
`MeasurementDataSource.Read`, `MeasurementResource.Read` and `MeasurementResource.Delete`,
when their upstream call fails with `e`, end with an error diagnostic whose detail is exactly
`e` and leave the response state as it was; `MeasurementResource.Create`, when its upstream
Ping call fails with `e`, ends with the error diagnostic `Client Error` whose detail is
`Unable to create ping measurement, got error: ` followed by `e`, and leaves the response
state as it was.  (Each operation is handed a request that decodes and a response without
earlier error diagnostics.) -/
theorem upstream_error_reported (e : String) :
    (∀ (d : CreditsDataSource) (req : datasource.ReadRequest CreditsDataSourceModel)
        (resp : datasource.ReadResponse CreditsDataSourceModel) (data : CreditsDataSourceModel),
      req.Config.Raw = some data → diag.Diagnostics.HasError resp.Diagnostics = false →
      d.client.GetCredits = .error e →
      diag.NewErrorDiagnostic "Unable to get credits from RIPE Atlas" e ∈
        (CreditsDataSource.Read d req resp).1.Diagnostics ∧
      (CreditsDataSource.Read d req resp).1.State = resp.State) ∧
    (∀ (d : MeasurementDataSource) (req : datasource.ReadRequest MeasurementDataSourceModel)
        (resp : datasource.ReadResponse MeasurementDataSourceModel)
        (data : MeasurementDataSourceModel),
      req.Config.Raw = some data → diag.Diagnostics.HasError resp.Diagnostics = false →
      d.client.GetMeasurements (MeasurementDataSource.readFilter data) = .error e →
      diag.NewErrorDiagnostic "Unable to get measurements from RIPE Atlas" e ∈
        (MeasurementDataSource.Read d req resp).1.Diagnostics ∧
      (MeasurementDataSource.Read d req resp).1.State = resp.State) ∧
    (∀ (r : MeasurementResource) (req : resource.ReadRequest) (resp : resource.ReadResponse)
        (data : MeasurementResourceModel),
      req.State.Raw = some data → diag.Diagnostics.HasError resp.Diagnostics = false →
      data.ID.IsUnknown = false →
      r.client.GetMeasurement data.ID.ValueInt64 true = .error e →
      diag.NewErrorDiagnostic "Unable to get measurement from RIPE Atlas" e ∈
        (MeasurementResource.Read r req resp).1.Diagnostics ∧
      (MeasurementResource.Read r req resp).1.State = resp.State) ∧
    (∀ (r : MeasurementResource) (req : resource.DeleteRequest) (resp : resource.DeleteResponse)
        (data : MeasurementResourceModel),
      req.State.Raw = some data → diag.Diagnostics.HasError resp.Diagnostics = false →
      r.client.DeleteMeasurement data.ID.ValueInt64 = some e →
      diag.NewErrorDiagnostic "Unable to get measurement from RIPE Atlas" e ∈
        (MeasurementResource.Delete r req resp).1.Diagnostics ∧
      (MeasurementResource.Delete r req resp).1.State = resp.State) ∧
    (∀ (r : MeasurementResource) (now : String) (req : resource.CreateRequest)
        (resp : resource.CreateResponse) (data : MeasurementResourceModel),
      req.Plan.Raw = some data → diag.Diagnostics.HasError resp.Diagnostics = false →
      data.Type_.ValueString = "ping" →
      r.client.Ping (MeasurementResource.createRequest r data) = .error e →
      diag.NewErrorDiagnostic "Client Error"
          ("Unable to create ping measurement, got error: " ++ e) ∈
        (MeasurementResource.Create r now req resp).1.Diagnostics ∧
      (MeasurementResource.Create r now req resp).1.State = resp.State) := by
  refine ⟨?_, ?_, ?_, ?_, ?_⟩
  · intro d req resp data hcfg hresp herr
    simp [CreditsDataSource.Read, tfsdk.Data.Get, hcfg, Append_nil, hresp, herr, AddError_mem]
  · intro d req resp data hcfg hresp herr
    simp [MeasurementDataSource.Read, tfsdk.Data.Get, hcfg, Append_nil, hresp, herr,
      AddError_mem]
  · intro r req resp data hst hresp hid herr
    simp [MeasurementResource.Read, tfsdk.Data.Get, hst, Append_nil, hresp, hid, herr,
      AddError_mem]
  · intro r req resp data hst hresp herr
    simp [MeasurementResource.Delete, tfsdk.Data.Get, hst, Append_nil, hresp, herr,
      AddError_mem]
  · intro r now req resp data hplan hresp htype herr
    simp [MeasurementResource.Create, tfsdk.Data.Get, hplan, Append_nil, hresp, htype, herr,
      AddError_mem]

/-- Witness for C12 (amended): every endpoint fails with the text `boom`. -/
theorem upstream_error_reported_witness :
    diag.NewErrorDiagnostic "Unable to get credits from RIPE Atlas" "boom" ∈
      (CreditsDataSource.Read ⟨Example.failingClient "boom"⟩
        ⟨⟨some CreditsDataSourceModel.zero⟩⟩ ⟨⟨none⟩, []⟩).1.Diagnostics ∧
    diag.NewErrorDiagnostic "Unable to get measurement from RIPE Atlas" "boom" ∈
      (MeasurementResource.Delete ⟨Example.failingClient "boom"⟩
        ⟨⟨some (Example.model "ping" (.known 42))⟩⟩
        ⟨⟨some (Example.model "ping" (.known 42))⟩, []⟩).1.Diagnostics ∧
    diag.NewErrorDiagnostic "Client Error"
        "Unable to create ping measurement, got error: boom" ∈
      (MeasurementResource.Create ⟨Example.failingClient "boom"⟩ "now"
        ⟨⟨some (Example.model "ping" .unknown)⟩⟩ ⟨⟨none⟩, []⟩).1.Diagnostics :=
  have h := upstream_error_reported "boom"
  ⟨(h.1 ⟨Example.failingClient "boom"⟩ ⟨⟨some CreditsDataSourceModel.zero⟩⟩ ⟨⟨none⟩, []⟩
      CreditsDataSourceModel.zero rfl rfl rfl).1,
   (h.2.2.2.1 ⟨Example.failingClient "boom"⟩ ⟨⟨some (Example.model "ping" (.known 42))⟩⟩
      ⟨⟨some (Example.model "ping" (.known 42))⟩, []⟩ (Example.model "ping" (.known 42))
      rfl rfl rfl).1,
   (h.2.2.2.2 ⟨Example.failingClient "boom"⟩ "now" ⟨⟨some (Example.model "ping" .unknown)⟩⟩
      ⟨⟨none⟩, []⟩ (Example.model "ping" .unknown) rfl rfl (by decide) rfl).1⟩

/-- Counterexample to C12 as stated: when the upstream Ping call of `Create` fails with the
error text `boom`, the only diagnostic reported has the detail
`Unable to create ping measurement, got error: boom`; no diagnostic has the detail `boom`. -/
theorem Create_error_detail_counterexample :
    (Example.failingClient "boom").Ping (MeasurementResource.createRequest
        ⟨Example.failingClient "boom"⟩ (Example.model "ping" .unknown)) = .error "boom" ∧
    (MeasurementResource.Create ⟨Example.failingClient "boom"⟩ "now"
        ⟨⟨some (Example.model "ping" .unknown)⟩⟩ ⟨⟨none⟩, []⟩).1.Diagnostics =
      [diag.NewErrorDiagnostic "Client Error"
        "Unable to create ping measurement, got error: boom"] ∧
    ¬ ∃ d ∈ (MeasurementResource.Create ⟨Example.failingClient "boom"⟩ "now"
        ⟨⟨some (Example.model "ping" .unknown)⟩⟩ ⟨⟨none⟩, []⟩).1.Diagnostics,
      d.Detail = "boom" := by
  refine ⟨rfl, by decide, by decide⟩

/-! ## MeasurementResource.Create: identity and frame -/

/-- C13: for every create request whose plan decodes to `data` with `type == "ping"` and the
planned id unknown (the id attribute is computed, so the plan of a resource being created
holds no value for it), handed a response without error diagnostics, whose upstream Ping call
succeeds with an empty identifier list, `Create` reports the error diagnostic
`No ID Retrieved` and leaves the response state as it was. -/
theorem Create_no_id_retrieved (r : MeasurementResource) (now : String)
    (req : resource.CreateRequest) (resp : resource.CreateResponse)
    (data : MeasurementResourceModel) (ms : atlas.MeasurementResp)
    (hplan : req.Plan.Raw = some data)
    (hid : data.ID = .unknown)
    (hresp : diag.Diagnostics.HasError resp.Diagnostics = false)
    (htype : data.Type_.ValueString = "ping")
    (hping : r.client.Ping (MeasurementResource.createRequest r data) = .ok ms)
    (hempty : ms.Measurements = []) :
    diag.NewErrorDiagnostic "No ID Retrieved"
        "Error occurred while creating object. No ID retrieved!" ∈
      (MeasurementResource.Create r now req resp).1.Diagnostics ∧
    diag.Diagnostics.HasError (MeasurementResource.Create r now req resp).1.Diagnostics = true ∧
    (MeasurementResource.Create r now req resp).1.State = resp.State := by
  simp [MeasurementResource.Create, tfsdk.Data.Get, hplan, Append_nil, hresp, htype, hping,
    hempty, MeasurementResource.assignIds, hid, basetypes.Int64Value.IsUnknown, AddError_mem,
    AddError_HasError]

/-- Witness for C13: a ping request answered with no identifier. -/
theorem Create_no_id_retrieved_witness :
    diag.NewErrorDiagnostic "No ID Retrieved"
        "Error occurred while creating object. No ID retrieved!" ∈
      (MeasurementResource.Create ⟨Example.client []⟩ "now"
        ⟨⟨some (Example.model "ping" .unknown)⟩⟩ ⟨⟨none⟩, []⟩).1.Diagnostics ∧
    (MeasurementResource.Create ⟨Example.client []⟩ "now"
        ⟨⟨some (Example.model "ping" .unknown)⟩⟩ ⟨⟨none⟩, []⟩).1.State = ⟨none⟩ :=
  have h := Create_no_id_retrieved ⟨Example.client []⟩ "now"
    ⟨⟨some (Example.model "ping" .unknown)⟩⟩ ⟨⟨none⟩, []⟩ (Example.model "ping" .unknown)
    { Measurements := [] } rfl rfl rfl (by decide) rfl rfl
  ⟨h.1, h.2.2⟩

/-- C14: for every create request whose plan decodes to `data` with `type == "ping"`, handed
a response without error diagnostics, whose upstream Ping call succeeds with a non-empty list
of positive identifiers, the state written by `Create` has a known, positive id and a known
last_updated (the formatted current time), and its description, type, target, interval,
packets, size and probe_set are exactly the planned values: the written state is the plan
with only id and last_updated replaced. -/
theorem Create_changes_only_id_and_last_updated (r : MeasurementResource) (now : String)
    (req : resource.CreateRequest) (resp : resource.CreateResponse)
    (data : MeasurementResourceModel) (ms : atlas.MeasurementResp)
    (hplan : req.Plan.Raw = some data)
    (hresp : diag.Diagnostics.HasError resp.Diagnostics = false)
    (htype : data.Type_.ValueString = "ping")
    (hping : r.client.Ping (MeasurementResource.createRequest r data) = .ok ms)
    (hne : ms.Measurements ≠ [])
    (hpos : ∀ x ∈ ms.Measurements, 0 < x) :
    ∃ st id, (MeasurementResource.Create r now req resp).1.State.Raw = some st ∧
      st.ID = .known id ∧ 0 < id ∧
      st.LastUpdated = .known now ∧
      st.LastUpdated.IsNull = false ∧ st.LastUpdated.IsUnknown = false ∧
      st.Description = data.Description ∧
      st.Type_ = data.Type_ ∧
      st.Target = data.Target ∧
      st.Interval = data.Interval ∧
      st.Packets = data.Packets ∧
      st.Size = data.Size ∧
      st.ProbeSet = data.ProbeSet ∧
      st = { data with ID := .known id, LastUpdated := .known now } := by
  have hlast := assignIds_getLast data ms.Measurements hne
  have hframe := assignIds_frame ms.Measurements data
  have hunk : (MeasurementResource.assignIds data ms.Measurements).ID.IsUnknown = false := by
    rw [hlast]; rfl
  have hst : (MeasurementResource.Create r now req resp).1.State.Raw =
      some { data with ID := .known (ms.Measurements.getLast hne), LastUpdated := .known now } := by
    simp only [MeasurementResource.Create, tfsdk.Data.Get, tfsdk.Data.Set, hplan, Append_nil,
      hresp, htype, hping, hunk]
    simp only [Bool.false_eq_true, if_false, if_true]
    rw [hframe, hlast]
    rfl
  exact ⟨_, ms.Measurements.getLast hne, hst, rfl, hpos _ (List.getLast_mem hne), rfl, rfl, rfl,
    rfl, rfl, rfl, rfl, rfl, rfl, rfl, rfl⟩

/-- Witness for C14: the scenario of the specification, answered with identifier 42. -/
theorem Create_changes_only_id_and_last_updated_witness :
    ∃ st id, (MeasurementResource.Create ⟨Example.roundTripClient⟩ "now"
        ⟨⟨some (Example.model "ping" .unknown)⟩⟩ ⟨⟨none⟩, []⟩).1.State.Raw = some st ∧
      st.ID = .known id ∧ 0 < id ∧ st.LastUpdated = .known "now" :=
  (Create_changes_only_id_and_last_updated ⟨Example.roundTripClient⟩ "now"
    ⟨⟨some (Example.model "ping" .unknown)⟩⟩ ⟨⟨none⟩, []⟩ (Example.model "ping" .unknown)
    { Measurements := [42] } rfl rfl (by decide) rfl (by decide) (by decide)).imp
    (fun _ h => h.imp (fun _ h2 => ⟨h2.1, h2.2.1, h2.2.2.1, h2.2.2.2.1⟩))

/-! ## Lemmas: decimal rendering of integers -/

/-- Bytes of a string given by its characters. -/
theorem goBytes_mk (cs : List Char) :
    goBytes ⟨cs⟩ = (cs.flatMap String.utf8EncodeChar).map UInt8.toNat := by
  simp [goBytes, String.toUTF8]

/-- Bytes of a concatenation. -/
theorem goBytes_append (a b : String) : goBytes (a ++ b) = goBytes a ++ goBytes b := by
  cases a; cases b
  simp [goBytes, String.toUTF8]

/-- The character of a decimal digit is encoded as the single byte `48 + d`. -/
theorem digitChar_bytes (d : Nat) (hd : d < 10) :
    (String.utf8EncodeChar (Nat.digitChar d)).map UInt8.toNat = [48 + d] := by
  interval_cases d <;> rfl

/-- Bytes of a list of decimal digit characters: all are digits, and positional evaluation
from `acc` is determined by the digits. -/
theorem toDigitsCore_bytes (fuel : Nat) :
    ∀ (n : Nat) (ds : List Char), n < fuel →
      ∃ pre : List Char, Nat.toDigitsCore 10 fuel n ds = pre ++ ds ∧
        (pre.flatMap String.utf8EncodeChar).map UInt8.toNat ≠ [] ∧
        ((pre.flatMap String.utf8EncodeChar).map UInt8.toNat).all isDecimalDigit = true ∧
        ∀ acc, ((pre.flatMap String.utf8EncodeChar).map UInt8.toNat).foldl decimalStep acc =
          acc * 10 ^ pre.length + n := by
  induction fuel with
  | zero => intro n ds h; omega
  | succ fuel ih =>
    intro n ds hn
    have hb := digitChar_bytes (n % 10) (Nat.mod_lt _ (by decide))
    have hdig : isDecimalDigit (48 + n % 10) = true := by
      have := Nat.mod_lt n (show 0 < 10 by decide)
      simp [isDecimalDigit]; omega
    unfold Nat.toDigitsCore
    simp only
    by_cases h0 : n / 10 = 0
    · rw [if_pos h0]
      refine ⟨[Nat.digitChar (n % 10)], rfl, ?_, ?_, ?_⟩
      · simp [hb]
      · simp [hb, hdig]
      · intro acc
        have hf : ([Nat.digitChar (n % 10)].flatMap String.utf8EncodeChar).map UInt8.toNat =
            [48 + n % 10] := by simp [hb]
        rw [hf]
        simp only [List.foldl_cons, List.foldl_nil, decimalStep, List.length_singleton]
        omega
    · rw [if_neg h0]
      obtain ⟨pre, hpre, hne, hall, hval⟩ :=
        ih (n / 10) (Nat.digitChar (n % 10) :: ds) (by omega)
      refine ⟨pre ++ [Nat.digitChar (n % 10)], by simp [hpre], ?_, ?_, ?_⟩
      · simp [hb]
      · have hf : ((pre ++ [Nat.digitChar (n % 10)]).flatMap String.utf8EncodeChar).map
            UInt8.toNat = (pre.flatMap String.utf8EncodeChar).map UInt8.toNat ++ [48 + n % 10] := by
          simp [hb]
        rw [hf]
        simp [hall, hdig]
      · intro acc
        have hf : ((pre ++ [Nat.digitChar (n % 10)]).flatMap String.utf8EncodeChar).map
            UInt8.toNat = (pre.flatMap String.utf8EncodeChar).map UInt8.toNat ++ [48 + n % 10] := by
          simp [hb]
        rw [hf]
        simp only [List.foldl_append, hval, List.foldl_cons, List.foldl_nil, decimalStep,
          List.length_append, List.length_singleton, pow_succ]
        have hdm := Nat.div_add_mod n 10
        have e : 48 + n % 10 - 48 = n % 10 := by omega
        rw [e]
        have e2 : (acc * 10 ^ pre.length + n / 10) * 10 =
            acc * (10 ^ pre.length * 10) + (n / 10) * 10 := by ring
        rw [e2]
        omega

/-- The decimal rendering of a natural number is a non-empty sequence of digit bytes that
denotes the number. -/
theorem goBytes_Nat_repr (n : Nat) :
    goBytes (Nat.repr n) ≠ [] ∧ (goBytes (Nat.repr n)).all isDecimalDigit = true ∧
      decimalValue (goBytes (Nat.repr n)) = n := by
  obtain ⟨pre, hpre, hne, hall, hval⟩ := toDigitsCore_bytes (n + 1) n [] (by omega)
  have hrepr : Nat.repr n = ⟨pre⟩ := by
    simp [Nat.repr, Nat.toDigits, hpre, List.asString]
  rw [hrepr, goBytes_mk]
  refine ⟨hne, hall, ?_⟩
  have := hval 0
  simpa [decimalValue] using this

/-- The decimal rendering of an integer is a base-10 numeral that denotes the integer. -/
theorem base10Numeral_toString (i : Int) : base10Numeral (toString i) = some i := by
  cases i with
  | ofNat m =>
    obtain ⟨hne, hall, hval⟩ := goBytes_Nat_repr m
    have hs : toString (Int.ofNat m) = Nat.repr m := rfl
    rw [hs]
    unfold base10Numeral
    cases hb : goBytes (Nat.repr m) with
    | nil => exact absurd hb hne
    | cons c rest =>
      rw [hb] at hall hval
      have hc : isDecimalDigit c = true := by
        simp only [List.all_cons, Bool.and_eq_true] at hall
        exact hall.1
      simp only [isDecimalDigit, decide_eq_true_eq] at hc
      simp only
      rw [if_neg (by omega), if_neg (by omega), if_pos hall, hval]
      rfl
  | negSucc m =>
    obtain ⟨hne, hall, hval⟩ := goBytes_Nat_repr (m + 1)
    have hs : toString (Int.negSucc m) = "-" ++ Nat.repr (m + 1) := rfl
    rw [hs]
    unfold base10Numeral
    rw [goBytes_append]
    have hminus : goBytes "-" = [45] := by decide
    rw [hminus]
    simp only [List.singleton_append]
    have hcond : goBytes (Nat.repr (m + 1)) ≠ [] ∧
        (goBytes (Nat.repr (m + 1))).all isDecimalDigit = true := ⟨hne, hall⟩
    have h43 : ¬ ((45 : Nat) = 43) := by decide
    rw [if_neg h43, if_pos trivial, if_pos hcond, hval]
    rfl

/-! ## Import round trip -/

/-- Every state that `Read` writes has a null last_updated: the model is rebuilt from the
fetched measurement alone. -/
theorem Read_clears_last_updated (r : MeasurementResource)
    (req : resource.ReadRequest) (resp : resource.ReadResponse)
    (data : MeasurementResourceModel) (m : atlas.Measurement)
    (hstate : req.State.Raw = some data)
    (hresp : diag.Diagnostics.HasError resp.Diagnostics = false)
    (hid : data.ID.IsUnknown = false)
    (hfetch : r.client.GetMeasurement data.ID.ValueInt64 true = .ok m) :
    (MeasurementResource.Read r req resp).1.State.Raw.map (fun st => st.LastUpdated) =
      some .null := by
  simp [MeasurementResource.Read, tfsdk.Data.Get, tfsdk.Data.Set, hstate, Append_nil, hresp,
    hid, hfetch]

/-- C15 (amended): for every measurement created by `Create` (a plan of type ping that
decodes, a response without earlier error diagnostics, a successful upstream Ping call with a
non-empty identifier list; the id, the last identifier, is a Go `int`), if the upstream fetch
for that id returns a measurement `m` whose id, type, target, interval, packets, size and
participation requests match what was created, then `ImportState` with the decimal string of
that id followed by `Read` yields a state equal to the state after `Create` on id, type,
target, interval, packets, size and probe_set; its description is the upstream description;
its last_updated is null, whereas the state after `Create` holds the creation time:
last_updated is not restored. -/
theorem Import_round_trip_restores_all_but_last_updated (r : MeasurementResource)
    (now : String) (Quote : String → String)
    (createReq : resource.CreateRequest) (createResp : resource.CreateResponse)
    (importResp : resource.ImportStateResponse) (readResp : resource.ReadResponse)
    (data : MeasurementResourceModel) (ms : atlas.MeasurementResp) (m : atlas.Measurement)
    (hplan : createReq.Plan.Raw = some data)
    (hresp : diag.Diagnostics.HasError createResp.Diagnostics = false)
    (htype : data.Type_.ValueString = "ping")
    (hping : r.client.Ping (MeasurementResource.createRequest r data) = .ok ms)
    (hne : ms.Measurements ≠ [])
    (hlo : -9223372036854775808 ≤ ms.Measurements.getLast hne)
    (hhi : ms.Measurements.getLast hne ≤ 9223372036854775807)
    (hfetch : r.client.GetMeasurement (ms.Measurements.getLast hne) true = .ok m)
    (hmid : m.ID = ms.Measurements.getLast hne)
    (hmtype : data.Type_ = .known m.Type_)
    (hmtarget : data.Target = .known m.Target)
    (hminterval : data.Interval = .known m.Interval)
    (hmpackets : data.Packets = .known m.Packets)
    (hmsize : data.Size = .known m.Size)
    (hmprobes : data.ProbeSet = some (m.ParticipationRequests.map (fun participation =>
      { Number := .known participation.Requested,
        Type_ := .known participation.Type_,
        Value := .known participation.Value })))
    (hread : diag.Diagnostics.HasError readResp.Diagnostics = false) :
    ∃ created restored,
      (MeasurementResource.Create r now createReq createResp).1.State.Raw = some created ∧
      (MeasurementResource.Read r
        { State := (MeasurementResource.ImportState r Quote
            { ID := toString (ms.Measurements.getLast hne) } importResp).1.State }
        readResp).1.State.Raw = some restored ∧
      restored.ID = created.ID ∧
      restored.Type_ = created.Type_ ∧
      restored.Target = created.Target ∧
      restored.Interval = created.Interval ∧
      restored.Packets = created.Packets ∧
      restored.Size = created.Size ∧
      restored.ProbeSet = created.ProbeSet ∧
      restored.Description = .known m.Description ∧
      created.LastUpdated = .known now ∧
      restored.LastUpdated = .null := by
  have hlast := assignIds_getLast data ms.Measurements hne
  have hframe := assignIds_frame ms.Measurements data
  have hunk : (MeasurementResource.assignIds data ms.Measurements).ID.IsUnknown = false := by
    rw [hlast]; rfl
  have hcreated : (MeasurementResource.Create r now createReq createResp).1.State.Raw =
      some { data with ID := .known (ms.Measurements.getLast hne),
                       LastUpdated := .known now } := by
    simp only [MeasurementResource.Create, tfsdk.Data.Get, tfsdk.Data.Set, hplan, Append_nil,
      hresp, htype, hping, hunk]
    simp only [Bool.false_eq_true, if_false, if_true]
    rw [hframe, hlast]
    rfl
  have hparse := ParseInt_of_numeral (toString (ms.Measurements.getLast hne))
    (ms.Measurements.getLast hne) (base10Numeral_toString _) hlo hhi
  have himport : (MeasurementResource.ImportState r Quote
      { ID := toString (ms.Measurements.getLast hne) } importResp).1.State =
      { Raw := some { importResp.State.Raw.getD MeasurementResourceModel.zero with
          ID := .known (ms.Measurements.getLast hne) } } := by
    unfold MeasurementResource.ImportState
    rw [hparse]
    rfl
  have hrestored : (MeasurementResource.Read r
      { State := (MeasurementResource.ImportState r Quote
          { ID := toString (ms.Measurements.getLast hne) } importResp).1.State }
      readResp).1.State.Raw =
      some { ID := .known m.ID, Description := .known m.Description,
             Type_ := .known m.Type_, Target := .known m.Target,
             Interval := .known m.Interval, Packets := .known m.Packets,
             Size := .known m.Size,
             ProbeSet := MeasurementResource.readProbeSet m,
             LastUpdated := .null } := by
    rw [himport]
    simp [MeasurementResource.Read, tfsdk.Data.Get, tfsdk.Data.Set, Append_nil, hread,
      basetypes.Int64Value.IsUnknown, basetypes.Int64Value.ValueInt64, hfetch,
      types.Int64Value, types.StringValue]
  refine ⟨_, _, hcreated, hrestored, ?_, ?_, ?_, ?_, ?_, ?_, ?_, rfl, rfl, rfl⟩
  · simp [hmid]
  · simp [hmtype]
  · simp [hmtarget]
  · simp [hminterval]
  · simp [hmpackets]
  · simp [hmsize]
  · simp [hmprobes, readProbeSet_eq_map]

/-- Witness for C15 (amended): measurement 42 is created, then imported as `"42"` and read. -/
theorem Import_round_trip_restores_all_but_last_updated_witness :
    toString (42 : Int) = "42" ∧
    ∃ created restored,
      (MeasurementResource.Create ⟨Example.roundTripClient⟩ Example.now
        ⟨⟨some (Example.model "ping" .unknown)⟩⟩ ⟨⟨none⟩, []⟩).1.State.Raw = some created ∧
      (MeasurementResource.Read ⟨Example.roundTripClient⟩
        { State := (MeasurementResource.ImportState ⟨Example.roundTripClient⟩ Example.Quote
            { ID := toString (42 : Int) } ⟨⟨none⟩, []⟩).1.State }
        ⟨⟨none⟩, []⟩).1.State.Raw = some restored ∧
      restored.ID = created.ID ∧
      restored.ProbeSet = created.ProbeSet ∧
      created.LastUpdated = .known Example.now ∧
      restored.LastUpdated = .null :=
  ⟨by decide,
   (Import_round_trip_restores_all_but_last_updated ⟨Example.roundTripClient⟩ Example.now
      Example.Quote ⟨⟨some (Example.model "ping" .unknown)⟩⟩ ⟨⟨none⟩, []⟩ ⟨⟨none⟩, []⟩
      ⟨⟨none⟩, []⟩ (Example.model "ping" .unknown) { Measurements := [42] } Example.created
      rfl rfl (by decide) rfl (by decide) (by decide) (by decide) rfl rfl rfl rfl rfl rfl rfl
      rfl rfl).imp
    (fun _ h => h.imp (fun _ h2 =>
      ⟨h2.1, h2.2.1, h2.2.2.1, h2.2.2.2.2.2.2.2.2.1, h2.2.2.2.2.2.2.2.2.2.2.1,
        h2.2.2.2.2.2.2.2.2.2.2.2⟩))⟩

/-- Counterexample to C15 as stated: a ping measurement is created with identifier 42 and the
upstream fetch returns it with exactly the created id, description, type, target, interval,
packets, size and participation requests.  `ImportState` of `"42"` followed by `Read` agrees
with the state after `Create` on id, type, target, interval, packets, size and probe_set,
but its last_updated is null whereas the state after `Create` holds the creation time. -/
theorem Import_round_trip_last_updated_counterexample :
    toString (42 : Int) = "42" ∧
    Example.stateAfterCreate.Raw.map (fun st => st.ID) = some (.known 42) ∧
    Example.stateAfterImportRead.Raw.map (fun st => st.ID) =
      Example.stateAfterCreate.Raw.map (fun st => st.ID) ∧
    Example.stateAfterImportRead.Raw.map (fun st => st.Type_) =
      Example.stateAfterCreate.Raw.map (fun st => st.Type_) ∧
    Example.stateAfterImportRead.Raw.map (fun st => st.Target) =
      Example.stateAfterCreate.Raw.map (fun st => st.Target) ∧
    Example.stateAfterImportRead.Raw.map (fun st => st.Interval) =
      Example.stateAfterCreate.Raw.map (fun st => st.Interval) ∧
    Example.stateAfterImportRead.Raw.map (fun st => st.Packets) =
      Example.stateAfterCreate.Raw.map (fun st => st.Packets) ∧
    Example.stateAfterImportRead.Raw.map (fun st => st.Size) =
      Example.stateAfterCreate.Raw.map (fun st => st.Size) ∧
    Example.stateAfterImportRead.Raw.map (fun st => st.ProbeSet) =
      Example.stateAfterCreate.Raw.map (fun st => st.ProbeSet) ∧
    Example.stateAfterCreate.Raw.map (fun st => st.LastUpdated) =
      some (.known Example.now) ∧
    Example.stateAfterImportRead.Raw.map (fun st => st.LastUpdated) = some .null ∧
    Example.stateAfterImportRead.Raw.map (fun st => st.LastUpdated) ≠
      Example.stateAfterCreate.Raw.map (fun st => st.LastUpdated) := by
  decide

/-! ## MeasurementResource.Schema -/

/-- C16: the resource schema bounds its numeric attributes as documented: for every integer
`v`, interval is accepted iff `30 ≤ v ≤ 3600`, packets iff `1 ≤ v ≤ 10`, size iff
`48 ≤ v ≤ 1500`; their defaults are 300, 3 and 48, each default is accepted by its own
attribute, and type is accepted iff it is one of ping, dns, http, ntp, sslcert,
traceroute. -/
theorem Schema_bounds_defaults_and_types :
    (∀ v : Int, MeasurementResource.Schema.acceptsInt64 "interval" v = true ↔
      30 ≤ v ∧ v ≤ 3600) ∧
    (∀ v : Int, MeasurementResource.Schema.acceptsInt64 "packets" v = true ↔
      1 ≤ v ∧ v ≤ 10) ∧
    (∀ v : Int, MeasurementResource.Schema.acceptsInt64 "size" v = true ↔
      48 ≤ v ∧ v ≤ 1500) ∧
    MeasurementResource.Schema.defaultInt64 "interval" = some 300 ∧
    MeasurementResource.Schema.defaultInt64 "packets" = some 3 ∧
    MeasurementResource.Schema.defaultInt64 "size" = some 48 ∧
    MeasurementResource.Schema.acceptsInt64 "interval" 300 = true ∧
    MeasurementResource.Schema.acceptsInt64 "packets" 3 = true ∧
    MeasurementResource.Schema.acceptsInt64 "size" 48 = true ∧
    (∀ s : String, MeasurementResource.Schema.acceptsString "type" s = true ↔
      s = "ping" ∨ s = "dns" ∨ s = "http" ∨ s = "ntp" ∨ s = "sslcert" ∨ s = "traceroute") := by
  have hint : MeasurementResource.Schema.attribute "interval" = some (.int64
      { Optional := true, Computed := true, Default := int64default.StaticInt64 300,
        Validators := [int64validator.Between 30 3600],
        PlanModifiers := [int64planmodifier.RequiresReplace] }) := by decide
  have hpkt : MeasurementResource.Schema.attribute "packets" = some (.int64
      { Optional := true, Computed := true, Default := int64default.StaticInt64 3,
        Validators := [int64validator.Between 1 10],
        PlanModifiers := [int64planmodifier.RequiresReplace] }) := by decide
  have hsize : MeasurementResource.Schema.attribute "size" = some (.int64
      { Optional := true, Computed := true, Default := int64default.StaticInt64 48,
        Validators := [int64validator.Between 48 1500],
        PlanModifiers := [int64planmodifier.RequiresReplace] }) := by decide
  have htype : MeasurementResource.Schema.attribute "type" = some (.string
      { Required := true,
        Validators :=
          [stringvalidator.OneOf ["ping", "dns", "http", "ntp", "sslcert", "traceroute"]],
        PlanModifiers := [stringplanmodifier.RequiresReplace] }) := by decide
  refine ⟨?_, ?_, ?_, ?_, ?_, ?_, ?_, ?_, ?_, ?_⟩
  · intro v
    simp only [schema.Schema.acceptsInt64, hint, int64validator.Between, List.all_cons,
      List.all_nil, validator.Int64.Validate]
    simp
  · intro v
    simp only [schema.Schema.acceptsInt64, hpkt, int64validator.Between, List.all_cons,
      List.all_nil, validator.Int64.Validate]
    simp
  · intro v
    simp only [schema.Schema.acceptsInt64, hsize, int64validator.Between, List.all_cons,
      List.all_nil, validator.Int64.Validate]
    simp
  · simp only [schema.Schema.defaultInt64, hint]; rfl
  · simp only [schema.Schema.defaultInt64, hpkt]; rfl
  · simp only [schema.Schema.defaultInt64, hsize]; rfl
  · decide
  · decide
  · decide
  · intro s
    simp only [schema.Schema.acceptsString, htype, stringvalidator.OneOf, List.all_cons,
      List.all_nil, validator.String_.Validate]
    simp

end RipeAtlas
